import Mathlib

/-!
Shallow embedding of the student_app grade-management core
(`src/app/models.py`, `src/app/auth.py`, `src/app/services.py`,
`src/app/data.py`) in Lean 4, together with theorems settling the
frozen claims about it.

Modelling conventions:
* Python `dict`s become association lists (`List (κ × V)`) with
  insertion-order semantics: updating an existing key keeps its
  position, inserting a fresh key appends at the end, and `.values()`
  iterates in list order — exactly Python's dict behaviour.
* `datetime` timestamps become natural numbers measured in minutes, so
  `timedelta(minutes=15)` is `+ 15`.  Each operation receives the value
  of `_now()` as an explicit `now` argument.
* `float` scores become rationals (`ℚ`); Python's `round(x, n)`
  (round-half-to-even) becomes `pyround`.
* Password hashing (`security.py`, PBKDF2) is irrelevant to the control
  flow of `authenticate`; the Boolean outcome of `verify_password` is
  passed in as an abstract function argument `verify`.
* Raising `AppError(status_code, detail)` becomes returning
  `Except.error ⟨status_code, detail⟩` together with the state as left
  by the operation at the raise point.  Unguarded dict indexing
  (`d[k]`) becomes `Err.keyError` — Python's `KeyError`.
-/

namespace StudentApp

/-! ### Data model (`models.py`) -/

inductive Role where
  | student
  | teacher
  | principal
deriving DecidableEq, Repr

structure Account where
  username : String
  role : Role
  bind_id : Option String
  password_hash : String
  locked_until : Option Nat := none
  failed_attempts : Nat := 0
  force_password_change : Bool := true
deriving DecidableEq, Repr

structure Student where
  student_no : String
  name : String
  class_name : String
  status : String
  has_unread_published_grades : Bool := false
deriving DecidableEq, Repr

structure Subject where
  subject_code : String
  subject_name : String
deriving DecidableEq, Repr

structure Teacher where
  teacher_id : String
  name : String
  subjects : List String
  classes : List String
deriving DecidableEq, Repr

inductive ExamStatus where
  | published
  | draft
deriving DecidableEq, Repr

/-- `exam_date` is a calendar date, modelled as its ordinal number. -/
structure Exam where
  exam_id : String
  exam_name : String
  term : String
  exam_date : Nat
  classes : List String
  status : ExamStatus
deriving DecidableEq, Repr

structure Grade where
  exam_id : String
  subject_code : String
  student_no : String
  score : ℚ
  created_by : String
  created_at : Nat
  updated_at : Nat
  published : Bool := false
deriving DecidableEq, Repr

inductive AuditAction where
  | grade_created
  | grade_updated
  | grade_published
  | export
  | password_reset
deriving DecidableEq, Repr

/-- `details` is a free-form string-keyed record; values are rendered to
strings since no consumer in scope inspects them beyond equality. -/
structure AuditLogEntry where
  timestamp : Nat
  actor : String
  action : AuditAction
  details : List (String × String) := []
deriving DecidableEq, Repr

structure LoginResult where
  token : String
  role : Role
  must_change_password : Bool
deriving DecidableEq, Repr

structure AggregatedStats where
  highest : ℚ
  lowest : ℚ
  average : ℚ
  pass_rate : ℚ
deriving DecidableEq, Repr

structure StudentGradeView where
  exam_id : String
  exam_name : String
  exam_date : Nat
  subject_code : String
  subject_name : String
  score : ℚ
  class_average : ℚ
deriving DecidableEq, Repr

structure StudentGradeResponse where
  has_unread : Bool
  grades : List StudentGradeView
deriving DecidableEq, Repr

structure TeacherGradeView where
  student_no : String
  student_name : String
  class_name : String
  subject_code : String
  score : ℚ
  published : Bool
deriving DecidableEq, Repr

structure OverviewEntry where
  exam_id : String
  exam_name : String
  subject_code : String
  subject_name : String
  stats : AggregatedStats
deriving DecidableEq, Repr

/-! ### Errors (`exceptions.py` + Python `KeyError`) -/

structure AppError where
  status_code : Nat
  detail : String
deriving DecidableEq, Repr

/-- An exception escaping a service call: either an `AppError` raised by
the code, or a Python `KeyError` from unguarded dict indexing. -/
inductive Err where
  | app (e : AppError)
  | keyError (key : String)
deriving DecidableEq, Repr

/-! ### Python dicts as association lists -/

/-- `d.get(k)`: first entry with the given key (keys are unique in any
list built by `setk`, so "first" is "the" entry). -/
def lookup {κ V : Type} [DecidableEq κ] : List (κ × V) → κ → Option V
  | [], _ => none
  | (k', v) :: rest, k => if k' = k then some v else lookup rest k

/-- `d[k] = v`: replace in place if the key is present (keeping its
position, as Python dicts do), otherwise append at the end. -/
def setk {κ V : Type} [DecidableEq κ] : List (κ × V) → κ → V → List (κ × V)
  | [], k, v => [(k, v)]
  | (k', v') :: rest, k, v =>
      if k' = k then (k', v) :: rest else (k', v') :: setk rest k v

/-- `d.values()`, in insertion order. -/
def values {κ V : Type} (d : List (κ × V)) : List V := d.map Prod.snd

/-- Number of entries stored under a key (0 or 1 for genuine dicts). -/
def countKey {κ V : Type} [DecidableEq κ] (d : List (κ × V)) (k : κ) : Nat :=
  (d.filter (fun p => decide (p.1 = k))).length

/-! ### Rounding (`round(x, n)` in Python: round half to even) -/

/-- Round a rational to the nearest integer, ties to even. -/
def roundHalfEven (q : ℚ) : ℤ :=
  let f : ℤ := ⌊q⌋
  if q - f < 1 / 2 then f
  else if q - f > 1 / 2 then f + 1
  else if 2 ∣ f then f else f + 1

/-- Python's `round(q, ndigits)` for a non-negative `ndigits`. -/
def pyround (q : ℚ) (ndigits : Nat) : ℚ :=
  let m : ℚ := (10 : ℚ) ^ ndigits
  (roundHalfEven (q * m) : ℚ) / m

/-! ### Credential store (`auth.py`) -/

def LOCKOUT_THRESHOLD : Nat := 5
def LOCKOUT_MINUTES : Nat := 15

/-- The mutable state `auth.py` works on: `data.accounts` and the
module-level `_tokens` registry. -/
structure AuthState where
  accounts : List (String × Account)
  tokens : List (String × String)
deriving DecidableEq, Repr

/-- `auth.authenticate(username, password)`.

`verify` is the Boolean outcome of `security.verify_password` (a PBKDF2
digest comparison, opaque here); `now` is `_now()` for this call;
`newToken` is the fresh random token `generate_random_password(32)`
would mint on success. -/
def authenticate (verify : String → String → Bool) (st : AuthState)
    (now : Nat) (newToken : String) (username password : String) :
    Except AppError LoginResult × AuthState :=
  match lookup st.accounts username with
  | none => (.error ⟨401, "账号或密码错误"⟩, st)
  | some account =>
    if (match account.locked_until with
        | some t => decide (t > now)
        | none => false) then
      (.error ⟨423, "账号或密码错误/账号锁定"⟩, st)
    else if ¬ verify password account.password_hash then
      let fa := account.failed_attempts + 1
      let account' : Account :=
        { account with
            failed_attempts := fa,
            locked_until :=
              if fa ≥ LOCKOUT_THRESHOLD then some (now + LOCKOUT_MINUTES)
              else account.locked_until }
      (.error ⟨401, "账号或密码错误"⟩,
        { st with accounts := setk st.accounts username account' })
    else
      let account' : Account :=
        { account with failed_attempts := 0, locked_until := none }
      (.ok ⟨newToken, account.role, account.force_password_change⟩,
        { st with
            accounts := setk st.accounts username account',
            tokens := setk st.tokens newToken username })

/-! ### Shared data store (`data.py`, minus the concrete seed) -/

abbrev GradeKey := String × String × String

/-- The module-level dicts of `data.py` that `services.py` reads and
writes. -/
structure DB where
  students : List (String × Student)
  subjects : List (String × Subject)
  teachers : List (String × Teacher)
  exams : List (String × Exam)
  grades : List (GradeKey × Grade)
  audit_logs : List AuditLogEntry
deriving DecidableEq, Repr

/-! ### Services (`services.py`) -/

def PASSING_SCORE : ℚ := 60

/-- `_teacher_for_account`: role gate plus teacher binding resolution.
`data.teachers.get(account.bind_id or "")` — a missing `bind_id` is
replaced by `""`. -/
def teacher_for_account (db : DB) (account : Account) :
    Except AppError (String × List String × List String) :=
  if account.role ≠ Role.teacher then .error ⟨403, "权限不足"⟩
  else
    match lookup db.teachers (account.bind_id.getD "") with
    | none => .error ⟨403, "教师未绑定"⟩
    | some teacher => .ok (teacher.teacher_id, teacher.subjects, teacher.classes)

/-- `_record_log`. -/
def record_log (db : DB) (now : Nat) (action : AuditAction) (actor : String)
    (details : List (String × String)) : DB :=
  { db with audit_logs := db.audit_logs ++ [⟨now, actor, action, details⟩] }

/-- `_grades_for_student`. -/
def grades_for_student (db : DB) (student_no : String) : List Grade :=
  (values db.grades).filter (fun grade => decide (grade.student_no = student_no))

/-- `_visible_grades_for_teacher`: grades whose subject is owned by the
teacher and whose student belongs to one of the teacher's classes. -/
def visible_grades_for_teacher (db : DB) (account : Account) :
    Except AppError (List Grade) :=
  match teacher_for_account db account with
  | .error e => .error e
  | .ok (_, subjects, classes) =>
    let student_ids :=
      ((values db.students).filter
        (fun s => decide (s.class_name ∈ classes))).map Student.student_no
    .ok ((values db.grades).filter
      (fun grade =>
        decide (grade.subject_code ∈ subjects ∧ grade.student_no ∈ student_ids)))

/-- `teacher_update_grade` (grade upsert).  Returns the grade it wrote
together with the new store, or the `AppError` raised and the store as
it was at the raise point (no earlier mutation exists on any error
path). -/
def teacher_update_grade (db : DB) (now : Nat) (account : Account)
    (exam_id subject_code student_no : String) (score : ℚ) :
    Except AppError Grade × DB :=
  match teacher_for_account db account with
  | .error e => (.error e, db)
  | .ok (teacher_id, subjects, classes) =>
    match lookup db.exams exam_id with
    | none => (.error ⟨404, "考试不存在"⟩, db)
    | some _ =>
      if lookup db.subjects subject_code = none then
        (.error ⟨404, "科目不存在"⟩, db)
      else
        match lookup db.students student_no with
        | none => (.error ⟨404, "学生不存在"⟩, db)
        | some student =>
          if subject_code ∉ subjects then (.error ⟨403, "无权操作该科目"⟩, db)
          else if student.class_name ∉ classes then
            (.error ⟨403, "无权操作该班级"⟩, db)
          else if score < 0 ∨ score > 100 then
            (.error ⟨400, "分数范围错误"⟩, db)
          else
            let key : GradeKey := (exam_id, subject_code, student_no)
            let rounded_score := pyround score 1
            match lookup db.grades key with
            | some previous =>
              let updated : Grade :=
                { previous with
                    score := rounded_score,
                    updated_at := now,
                    created_by := teacher_id }
              (.ok updated,
                record_log
                  { db with grades := setk db.grades key updated }
                  now .grade_updated teacher_id
                  [("exam_id", exam_id), ("subject_code", subject_code),
                   ("student_no", student_no),
                   ("old_score", toString previous.score),
                   ("new_score", toString updated.score)])
            | none =>
              let grade : Grade :=
                { exam_id := exam_id, subject_code := subject_code,
                  student_no := student_no, score := rounded_score,
                  created_by := teacher_id, created_at := now,
                  updated_at := now, published := false }
              (.ok grade,
                record_log
                  { db with grades := db.grades ++ [(key, grade)] }
                  now .grade_created teacher_id
                  [("exam_id", exam_id), ("subject_code", subject_code),
                   ("student_no", student_no), ("score", toString grade.score)])

/-- One row of the bulk-import CSV, after the text-level parsing that
`teacher_import_grades` performs on `csv.DictReader` output: either the
four parsed fields, or `malformed` for a row with a missing field or an
unparsable score (which only contributes a format error message). -/
inductive CsvRow where
  | malformed
  | fields (exam_id subject_code student_no : String) (score : ℚ)
deriving DecidableEq, Repr

/-- The loop body of `teacher_import_grades`, threading the store, the
processed counter and the error list; `idx` is the 1-based CSV line
number (starting at 2). -/
def import_fold (now : Nat) (account : Account) :
    List CsvRow → Nat → DB → Nat → List String → (Nat × List String) × DB
  | [], _, db, processed, errors => ((processed, errors), db)
  | .malformed :: rest, idx, db, processed, errors =>
      import_fold now account rest (idx + 1) db processed
        (errors ++ ["第 " ++ toString idx ++ " 行格式错误"])
  | .fields exam_id subject_code student_no score :: rest, idx, db, processed, errors =>
      match teacher_update_grade db now account exam_id subject_code student_no score with
      | (.error e, db') =>
          import_fold now account rest (idx + 1) db' processed
            (errors ++ ["第 " ++ toString idx ++ " 行导入失败: " ++ e.detail])
      | (.ok _, db') =>
          import_fold now account rest (idx + 1) db' (processed + 1) errors

/-- `teacher_import_grades`: every row is routed through
`teacher_update_grade`; errors are collected, not raised. -/
def teacher_import_grades (db : DB) (now : Nat) (account : Account)
    (rows : List CsvRow) : (Nat × List String) × DB :=
  import_fold now account rows 2 db 0 []

/-- The loop of `publish_grades`, threading the grade entries (rebuilt
in order), the student dict (whose unread flags it may set) and the
`updated` counter. -/
def publish_fold (exam_id subject_code : String) (classes : List String) :
    List (GradeKey × Grade) → List (String × Student) → Nat →
    List (GradeKey × Grade) × List (String × Student) × Nat
  | [], students, updated => ([], students, updated)
  | (k, grade) :: rest, students, updated =>
    if grade.exam_id = exam_id ∧ grade.subject_code = subject_code then
      match lookup students grade.student_no with
      | some student =>
        if student.class_name ∈ classes then
          let students' :=
            if grade.published then students
            else setk students grade.student_no
              { student with has_unread_published_grades := true }
          let out := publish_fold exam_id subject_code classes rest students' (updated + 1)
          ((k, { grade with published := true }) :: out.1, out.2)
        else
          let out := publish_fold exam_id subject_code classes rest students updated
          ((k, grade) :: out.1, out.2)
      | none =>
        let out := publish_fold exam_id subject_code classes rest students updated
        ((k, grade) :: out.1, out.2)
    else
      let out := publish_fold exam_id subject_code classes rest students updated
      ((k, grade) :: out.1, out.2)

/-- `publish_grades`. -/
def publish_grades (db : DB) (now : Nat) (account : Account)
    (exam_id subject_code : String) : Except AppError Nat × DB :=
  match teacher_for_account db account with
  | .error e => (.error e, db)
  | .ok (teacher_id, subjects, classes) =>
    if subject_code ∉ subjects then (.error ⟨403, "无权发布该科目"⟩, db)
    else
      match lookup db.exams exam_id with
      | none => (.error ⟨404, "考试不存在"⟩, db)
      | some _ =>
        let out := publish_fold exam_id subject_code classes db.grades db.students 0
        let db' := { db with grades := out.1, students := out.2.1 }
        if out.2.2 = 0 then (.error ⟨404, "未找到成绩记录"⟩, db')
        else
          (.ok out.2.2,
            record_log db' now .grade_published teacher_id
              [("exam_id", exam_id), ("subject_code", subject_code),
               ("count", toString out.2.2)])

/-- Python truthiness of an optional string (`if term:` / `if exam_id:`
is false for both `None` and `""`). -/
def pyTruthy : Option String → Bool
  | none => false
  | some s => !s.isEmpty

/-- The `term` filter of `list_student_grades`:
`data.exams[grade.exam_id].term == term`, left to right, where the raw
indexing raises `KeyError` on an unknown exam. -/
def filter_term (db : DB) (term : String) :
    List Grade → Except Err (List Grade)
  | [] => .ok []
  | grade :: rest =>
    match lookup db.exams grade.exam_id with
    | none => .error (.keyError grade.exam_id)
    | some exam => do
        let tail ← filter_term db term rest
        pure (if exam.term = term then grade :: tail else tail)

/-- The `class_scores` comprehension inside `list_student_grades`:
scores of all grades for (exam, subject) whose student — fetched with
raw indexing, hence `KeyError` on a dangling `student_no` — sits in the
given class. -/
def class_scores (db : DB) (class_name exam_id subject_code : String) :
    List Grade → Except Err (List ℚ)
  | [] => .ok []
  | g :: rest =>
    if g.exam_id = exam_id ∧ g.subject_code = subject_code then
      match lookup db.students g.student_no with
      | none => .error (.keyError g.student_no)
      | some st => do
          let tail ← class_scores db class_name exam_id subject_code rest
          pure (if st.class_name = class_name then g.score :: tail else tail)
    else class_scores db class_name exam_id subject_code rest

/-- The view-building loop of `list_student_grades` (a grade whose exam
vanished is skipped; an unknown subject falls back to the code). -/
def build_views (db : DB) (student : Student) :
    List Grade → Except Err (List StudentGradeView)
  | [] => .ok []
  | grade :: rest =>
    match lookup db.exams grade.exam_id with
    | none => build_views db student rest
    | some exam => do
        let subject_name :=
          match lookup db.subjects grade.subject_code with
          | some subject => subject.subject_name
          | none => grade.subject_code
        let scores ← class_scores db student.class_name grade.exam_id
          grade.subject_code (values db.grades)
        let class_average :=
          if scores.length ≠ 0 then pyround (scores.sum / scores.length) 2
          else grade.score
        let tail ← build_views db student rest
        pure (⟨grade.exam_id, exam.exam_name, exam.exam_date,
               grade.subject_code, subject_name, grade.score,
               class_average⟩ :: tail)

/-- Sort key of `list_student_grades`: `(exam_date, subject_code)`,
lexicographically (Python `sorted` is a stable merge sort, as is
`List.mergeSort`). -/
def studentViewLE (a b : StudentGradeView) : Bool :=
  a.exam_date < b.exam_date ∨
    (a.exam_date = b.exam_date ∧ a.subject_code ≤ b.subject_code)

/-- `list_student_grades`: the student's own published grades, with the
unread flag returned and then cleared.  The flag is cleared only when
the call returns normally. -/
def list_student_grades (db : DB) (account : Account)
    (term : Option String) (exam_id : Option String) :
    Except Err StudentGradeResponse × DB :=
  if account.role ≠ Role.student then (.error (.app ⟨403, "权限不足"⟩), db)
  else
    match lookup db.students (account.bind_id.getD "") with
    | none => (.error (.app ⟨404, "学生不存在"⟩), db)
    | some student =>
      let relevant :=
        (grades_for_student db student.student_no).filter Grade.published
      let afterTerm :=
        if pyTruthy term then filter_term db (term.getD "") relevant
        else .ok relevant
      match afterTerm with
      | .error e => (.error e, db)
      | .ok relevant =>
        let relevant :=
          if pyTruthy exam_id then
            relevant.filter (fun g => decide (g.exam_id = exam_id.getD ""))
          else relevant
        match build_views db student relevant with
        | .error e => (.error e, db)
        | .ok views =>
          let response : StudentGradeResponse :=
            ⟨student.has_unread_published_grades, views.mergeSort studentViewLE⟩
          (.ok response,
            { db with
                students := setk db.students (account.bind_id.getD "")
                  { student with has_unread_published_grades := false } })

/-- `_aggregate_scores`. -/
def aggregate_scores (scores : List ℚ) : Option AggregatedStats :=
  match scores with
  | [] => none
  | s :: rest =>
    let highest := rest.foldl max s
    let lowest := rest.foldl min s
    let avg := pyround ((s :: rest).sum / (s :: rest).length) 2
    let passing := ((s :: rest).filter (fun score => decide (score ≥ PASSING_SCORE))).length
    let pass_rate := pyround (((passing : ℚ) / (s :: rest).length) * 100) 2
    some ⟨highest, lowest, avg, pass_rate⟩

/-- The score comprehension of `principal_overview`: every recorded
score for the (exam, subject) pair, published or not. -/
def scores_for (db : DB) (exam_id subject_code : String) : List ℚ :=
  ((values db.grades).filter
    (fun grade =>
      decide (grade.exam_id = exam_id ∧ grade.subject_code = subject_code))).map
    Grade.score

/-- The entry-building loops of `principal_overview` over a given exam
list: one entry per (exam, subject) with a non-empty score set. -/
def overview_entries (db : DB) (exams : List Exam) : List OverviewEntry :=
  exams.flatMap (fun exam =>
    (values db.subjects).filterMap (fun subject =>
      (aggregate_scores (scores_for db exam.exam_id subject.subject_code)).map
        (fun stats =>
          ⟨exam.exam_id, exam.exam_name, subject.subject_code,
           subject.subject_name, stats⟩)))

/-- `principal_overview`: `[data.exams[exam_id]] if exam_id else
data.exams.values()` — raw indexing, so a truthy unknown `exam_id`
raises `KeyError`, while a `None` or empty one falls back to all
exams. -/
def principal_overview (db : DB) (exam_id : Option String) :
    Except Err (List OverviewEntry) :=
  if pyTruthy exam_id then
    match lookup db.exams (exam_id.getD "") with
    | none => .error (.keyError (exam_id.getD ""))
    | some exam => .ok (overview_entries db [exam])
  else .ok (overview_entries db (values db.exams))

/-! ### Derived notions used to state the claims -/

/-- The unread-notification flag of the student stored under `no`. -/
def lookupFlag (students : List (String × Student)) (no : String) : Option Bool :=
  (lookup students no).map Student.has_unread_published_grades

/-- The class of the student stored under `no`. -/
def lookupClass (students : List (String × Student)) (no : String) : Option String :=
  (lookup students no).map Student.class_name

/-- A grade entry matched by the `publish_grades` loop: right exam,
right subject, student present and in one of the teacher's classes.
The loop touches (and counts) exactly these entries, published or
not. -/
def matchesB (students : List (String × Student))
    (exam_id subject_code : String) (classes : List String)
    (p : GradeKey × Grade) : Bool :=
  decide (p.2.exam_id = exam_id) && decide (p.2.subject_code = subject_code) &&
    (match lookup students p.2.student_no with
     | some st => decide (st.class_name ∈ classes)
     | none => false)

/-- A grade entry that transitions unpublished → published for student
`no` in a `publish_grades` call (these are the entries that set the
student's unread flag). -/
def transitionB (students : List (String × Student))
    (exam_id subject_code : String) (classes : List String) (no : String)
    (p : GradeKey × Grade) : Bool :=
  matchesB students exam_id subject_code classes p && !p.2.published &&
    decide (p.2.student_no = no)

/-- Two student dicts with pointwise equal membership and classes
(the publish loop only flips unread flags, so this is invariant). -/
def sameClasses (s s' : List (String × Student)) : Prop :=
  ∀ no, lookupClass s no = lookupClass s' no

/-- The state-mutating service operations of the API, with the inputs
each call consumes (`now` standing for the wall clock, `rows` for the
parsed CSV). -/
inductive Op where
  | upsert (now : Nat) (account : Account)
      (exam_id subject_code student_no : String) (score : ℚ)
  | bulkImport (now : Nat) (account : Account) (rows : List CsvRow)
  | publish (now : Nat) (account : Account) (exam_id subject_code : String)
  | listStudent (account : Account) (term exam_id : Option String)

/-- The state left behind by one service call (the returned value or
error is dropped). -/
def applyOp (db : DB) : Op → DB
  | .upsert now account exam_id subject_code student_no score =>
      (teacher_update_grade db now account exam_id subject_code student_no score).2
  | .bulkImport now account rows => (teacher_import_grades db now account rows).2
  | .publish now account exam_id subject_code =>
      (publish_grades db now account exam_id subject_code).2
  | .listStudent account term exam_id =>
      (list_student_grades db account term exam_id).2

/-! ### Concrete fixtures (a small slice of the seed in `data.py`),
used by the witness theorems -/

def studentW1 : Student :=
  { student_no := "S001", name := "张三", class_name := "Class 1",
    status := "在读", has_unread_published_grades := false }

def studentW2 : Student :=
  { student_no := "S002", name := "李四", class_name := "Class 1",
    status := "在读", has_unread_published_grades := false }

def teacherW : Teacher :=
  { teacher_id := "T100", name := "陈老师", subjects := ["CHN"],
    classes := ["Class 1", "Class 2"] }

def examW : Exam :=
  { exam_id := "EX2025M", exam_name := "2025-上学期-期中考试",
    term := "2025-上", exam_date := 739026, classes := ["Class 1", "Class 2"],
    status := .published }

def gradeW1 : Grade :=
  { exam_id := "EX2025M", subject_code := "CHN", student_no := "S001",
    score := 88, created_by := "T100", created_at := 0, updated_at := 0,
    published := false }

def gradeW2 : Grade :=
  { exam_id := "EX2025M", subject_code := "CHN", student_no := "S002",
    score := 76, created_by := "T100", created_at := 0, updated_at := 0,
    published := true }

def dbW : DB :=
  { students := [("S001", studentW1), ("S002", studentW2)],
    subjects := [("CHN", ⟨"CHN", "语文"⟩), ("MTH", ⟨"MTH", "数学"⟩)],
    teachers := [("T100", teacherW)],
    exams := [("EX2025M", examW)],
    grades := [(("EX2025M", "CHN", "S001"), gradeW1),
               (("EX2025M", "CHN", "S002"), gradeW2)],
    audit_logs := [] }

/-- `dbW` with no grades recorded at all. -/
def dbWnog : DB := { dbW with grades := [] }

def acctTeacherW : Account :=
  { username := "t_chn", role := .teacher, bind_id := some "T100",
    password_hash := "h" }

def acctStudentW : Account :=
  { username := "s_s001", role := .student, bind_id := some "S001",
    password_hash := "h" }

/-- Password verification used by the auth witnesses: the stored
"hash" is the plaintext itself.  (`authenticate` is parametric in this
function; only its Boolean outcomes matter.) -/
def verifyW (password stored : String) : Bool := password == stored

def acctAliceW : Account :=
  { username := "alice", role := .student, bind_id := some "S001",
    password_hash := "Pass@123", locked_until := none, failed_attempts := 0,
    force_password_change := true }

def authStW : AuthState :=
  { accounts := [("alice", acctAliceW)], tokens := [] }

/-! ## Lemmas about the dict embedding -/

theorem lookup_setk_self {κ V : Type} [DecidableEq κ] (l : List (κ × V)) (k : κ) (v : V) :
    lookup (setk l k v) k = some v := by
  induction l with
  | nil => simp [setk, lookup]
  | cons p rest ih =>
    obtain ⟨k', v'⟩ := p
    by_cases h : k' = k
    · subst h; simp [setk, lookup]
    · simp [setk, lookup, h, ih]

theorem lookup_setk_ne {κ V : Type} [DecidableEq κ] (l : List (κ × V)) (k k₂ : κ) (v : V)
    (h : k₂ ≠ k) : lookup (setk l k v) k₂ = lookup l k₂ := by
  induction l with
  | nil =>
    simp only [setk, lookup]
    rw [if_neg (fun hh => h hh.symm)]
  | cons p rest ih =>
    obtain ⟨k', v'⟩ := p
    by_cases hk : k' = k
    · subst hk
      have : k' ≠ k₂ := fun hh => h hh.symm
      simp [setk, lookup, this]
    · by_cases hk2 : k' = k₂
      · subst hk2; simp [setk, lookup, hk]
      · simp [setk, lookup, hk, hk2, ih]

theorem lookup_append_some {κ V : Type} [DecidableEq κ] {l : List (κ × V)} {k : κ} {v : V}
    (l₂ : List (κ × V)) (h : lookup l k = some v) : lookup (l ++ l₂) k = some v := by
  induction l with
  | nil => simp [lookup] at h
  | cons p rest ih =>
    obtain ⟨k', v'⟩ := p
    by_cases hk : k' = k
    · subst hk; simp_all [lookup]
    · simp_all [lookup, hk]

theorem lookup_append_none {κ V : Type} [DecidableEq κ] {l : List (κ × V)} {k : κ}
    (l₂ : List (κ × V)) (h : lookup l k = none) : lookup (l ++ l₂) k = lookup l₂ k := by
  induction l with
  | nil => simp [lookup]
  | cons p rest ih =>
    obtain ⟨k', v'⟩ := p
    by_cases hk : k' = k
    · simp [lookup, hk] at h
    · simp_all [lookup, hk]

theorem countKey_append {κ V : Type} [DecidableEq κ] (l l₂ : List (κ × V)) (k : κ) :
    countKey (l ++ l₂) k = countKey l k + countKey l₂ k := by
  simp [countKey, List.filter_append]

theorem countKey_eq_zero_of_lookup_none {κ V : Type} [DecidableEq κ]
    {l : List (κ × V)} {k : κ} (h : lookup l k = none) : countKey l k = 0 := by
  induction l with
  | nil => simp [countKey]
  | cons p rest ih =>
    obtain ⟨k', v'⟩ := p
    by_cases hk : k' = k
    · simp [lookup, hk] at h
    · simp [lookup, hk] at h
      simp [countKey, hk, List.filter_cons] at ih ⊢
      exact ih h

theorem countKey_setk_of_lookup_some {κ V : Type} [DecidableEq κ]
    {l : List (κ × V)} {k : κ} {v₀ : V} (v : V) (h : lookup l k = some v₀) (k₂ : κ) :
    countKey (setk l k v) k₂ = countKey l k₂ := by
  induction l with
  | nil => simp [lookup] at h
  | cons p rest ih =>
    obtain ⟨k', v'⟩ := p
    by_cases hk : k' = k
    · subst hk
      simp only [setk, countKey, List.filter_cons, if_pos rfl]
      by_cases hk2 : k' = k₂ <;> simp [hk2]
    · simp [lookup, hk] at h
      simp [setk, countKey, List.filter_cons, hk] at ih ⊢
      by_cases hk2 : k' = k₂ <;> simp [hk2, ih h]

theorem mem_values_iff {κ V : Type} (d : List (κ × V)) (v : V) :
    v ∈ values d ↔ ∃ k, (k, v) ∈ d := by
  constructor
  · intro h
    obtain ⟨⟨k, v'⟩, hmem, hv⟩ := List.mem_map.mp h
    exact ⟨k, by simpa [← hv] using hmem⟩
  · rintro ⟨k, hmem⟩
    exact List.mem_map.mpr ⟨(k, v), hmem, rfl⟩

/-! ## Lemmas about rounding and folded extrema -/

/-- When `q·10^n` is an integer no rounding happens: `pyround` just
scales back. -/
theorem pyround_int (q : ℚ) (n : Nat) (z : ℤ) (hz : q * 10 ^ n = (z : ℚ)) :
    pyround q n = (z : ℚ) / 10 ^ n := by
  simp only [pyround, roundHalfEven, hz, Int.floor_intCast]
  norm_num

theorem foldl_max_eq_or_mem (l : List ℚ) (a : ℚ) :
    l.foldl max a = a ∨ l.foldl max a ∈ l := by
  induction l generalizing a with
  | nil => left; rfl
  | cons x xs ih =>
    rcases ih (max a x) with h | h
    · rw [List.foldl_cons, h]
      rcases max_choice a x with hc | hc
      · left; exact hc
      · right; rw [hc]; exact List.mem_cons_self x xs
    · right; exact List.mem_cons_of_mem x h

theorem le_foldl_max (l : List ℚ) (a : ℚ) : a ≤ l.foldl max a := by
  induction l generalizing a with
  | nil => exact le_refl a
  | cons x xs ih => exact le_trans (le_max_left a x) (ih (max a x))

theorem mem_le_foldl_max (l : List ℚ) (a x : ℚ) (hx : x ∈ l) : x ≤ l.foldl max a := by
  induction l generalizing a with
  | nil => cases hx
  | cons y ys ih =>
    rcases List.mem_cons.mp hx with h | h
    · subst h; exact le_trans (le_max_right a x) (le_foldl_max ys (max a x))
    · exact ih (max a y) h

theorem foldl_min_eq_or_mem (l : List ℚ) (a : ℚ) :
    l.foldl min a = a ∨ l.foldl min a ∈ l := by
  induction l generalizing a with
  | nil => left; rfl
  | cons x xs ih =>
    rcases ih (min a x) with h | h
    · rw [List.foldl_cons, h]
      rcases min_choice a x with hc | hc
      · left; exact hc
      · right; rw [hc]; exact List.mem_cons_self x xs
    · right; exact List.mem_cons_of_mem x h

theorem foldl_min_le (l : List ℚ) (a : ℚ) : l.foldl min a ≤ a := by
  induction l generalizing a with
  | nil => exact le_refl a
  | cons x xs ih => exact le_trans (ih (min a x)) (min_le_left a x)

theorem foldl_min_le_mem (l : List ℚ) (a x : ℚ) (hx : x ∈ l) : l.foldl min a ≤ x := by
  induction l generalizing a with
  | nil => cases hx
  | cons y ys ih =>
    rcases List.mem_cons.mp hx with h | h
    · subst h; exact le_trans (foldl_min_le ys (min a x)) (min_le_right a x)
    · exact ih (min a y) h

/-! ## Lemmas about `authenticate` -/

/-- A failed password check on an unlocked account: generic 401 error,
`failed_attempts` incremented, lock set exactly at the threshold. -/
theorem auth_fail_step (verify : String → String → Bool) (st : AuthState) (now : Nat)
    (tok username password : String) (a : Account)
    (h : lookup st.accounts username = some a)
    (hnl : a.locked_until = none)
    (hv : verify password a.password_hash = false) :
    authenticate verify st now tok username password =
      (.error ⟨401, "账号或密码错误"⟩,
       { st with accounts :=
                   setk st.accounts username
                     ({ a with failed_attempts := a.failed_attempts + 1,
                               locked_until :=
                                 if a.failed_attempts + 1 ≥ LOCKOUT_THRESHOLD then
                                   some (now + LOCKOUT_MINUTES)
                                 else none }) }) := by
  simp only [authenticate, h, hnl, hv]
  simp [hnl]

/-- A call on an account whose `locked_until` is in the future: 423,
before the password is even looked at, with the state untouched. -/
theorem auth_locked (verify : String → String → Bool) (st : AuthState) (now : Nat)
    (tok username password : String) (a : Account) (T : Nat)
    (h : lookup st.accounts username = some a)
    (hl : a.locked_until = some T) (hT : now < T) :
    authenticate verify st now tok username password =
      (.error ⟨423, "账号或密码错误/账号锁定"⟩, st) := by
  simp only [authenticate, h, hl]
  simp [hT]

/-- A successful password check: token minted, counters reset. -/
theorem auth_success (verify : String → String → Bool) (st : AuthState) (now : Nat)
    (tok username password : String) (a : Account)
    (h : lookup st.accounts username = some a)
    (hnl : ∀ T, a.locked_until = some T → T ≤ now)
    (hv : verify password a.password_hash = true) :
    authenticate verify st now tok username password =
      (.ok ⟨tok, a.role, a.force_password_change⟩,
       { st with
           accounts :=
             setk st.accounts username
               ({ a with failed_attempts := 0, locked_until := none }),
           tokens := setk st.tokens tok username }) := by
  cases hl : a.locked_until with
  | none => simp only [authenticate, h, hl, hv]; simp
  | some T =>
    have hT : ¬ (T > now) := not_lt.mpr (hnl T hl)
    simp only [authenticate, h, hl, hv]
    simp [hT]

/-- Claim C3: five consecutive wrong-password calls take an unlocked
account with no failed attempts through `failed_attempts` 1..5, the
fifth setting `locked_until = t5 + 15` minutes; a sixth call made
before that instant fails with the 423 lockout error even though its
password is correct (the lock is checked before the password); and any
successful call resets `failed_attempts` to 0 and clears
`locked_until`. -/
theorem lockout_after_five_failures
    (verify : String → String → Bool) (st0 : AuthState)
    (username wrongpw rightpw : String)
    (t1 t2 t3 t4 t5 t6 : Nat) (tok1 tok2 tok3 tok4 tok5 tok6 : String)
    (a : Account)
    (h0 : lookup st0.accounts username = some a)
    (hfa : a.failed_attempts = 0)
    (hnl : a.locked_until = none)
    (hw : verify wrongpw a.password_hash = false)
    (hr : verify rightpw a.password_hash = true)
    (ht : t6 < t5 + LOCKOUT_MINUTES) :
    ∃ (st1 st2 st3 st4 st5 : AuthState) (a1 a2 a3 a4 a5 : Account),
      authenticate verify st0 t1 tok1 username wrongpw = (.error ⟨401, "账号或密码错误"⟩, st1) ∧
      authenticate verify st1 t2 tok2 username wrongpw = (.error ⟨401, "账号或密码错误"⟩, st2) ∧
      authenticate verify st2 t3 tok3 username wrongpw = (.error ⟨401, "账号或密码错误"⟩, st3) ∧
      authenticate verify st3 t4 tok4 username wrongpw = (.error ⟨401, "账号或密码错误"⟩, st4) ∧
      authenticate verify st4 t5 tok5 username wrongpw = (.error ⟨401, "账号或密码错误"⟩, st5) ∧
      lookup st1.accounts username = some a1 ∧ a1.failed_attempts = 1 ∧ a1.locked_until = none ∧
      lookup st2.accounts username = some a2 ∧ a2.failed_attempts = 2 ∧ a2.locked_until = none ∧
      lookup st3.accounts username = some a3 ∧ a3.failed_attempts = 3 ∧ a3.locked_until = none ∧
      lookup st4.accounts username = some a4 ∧ a4.failed_attempts = 4 ∧ a4.locked_until = none ∧
      lookup st5.accounts username = some a5 ∧ a5.failed_attempts = 5 ∧
      a5.locked_until = some (t5 + LOCKOUT_MINUTES) ∧
      authenticate verify st5 t6 tok6 username rightpw =
        (.error ⟨423, "账号或密码错误/账号锁定"⟩, st5) ∧
      (∀ (st : AuthState) (now : Nat) (tok pw : String) (b : Account),
        lookup st.accounts username = some b →
        (∀ T, b.locked_until = some T → T ≤ now) →
        verify pw b.password_hash = true →
        ∃ b', (authenticate verify st now tok username pw).1 =
            .ok ⟨tok, b.role, b.force_password_change⟩ ∧
          lookup (authenticate verify st now tok username pw).2.accounts username = some b' ∧
          b'.failed_attempts = 0 ∧ b'.locked_until = none) := by
  have hth : LOCKOUT_THRESHOLD = 5 := rfl
  -- the account after the n-th failure
  set A : Nat → Option Nat → Account :=
    fun n lu => { a with failed_attempts := n, locked_until := lu } with hA
  have hAh : ∀ n lu, (A n lu).password_hash = a.password_hash := fun _ _ => rfl
  have e1 := auth_fail_step verify st0 t1 tok1 username wrongpw a h0 hnl hw
  rw [hfa, hth] at e1
  norm_num at e1
  set st1 : AuthState :=
    { st0 with accounts := setk st0.accounts username (A 1 none) } with hst1
  have l1 : lookup st1.accounts username = some (A 1 none) := lookup_setk_self _ _ _
  have e2 := auth_fail_step verify st1 t2 tok2 username wrongpw (A 1 none) l1 rfl
    (by rw [hAh]; exact hw)
  rw [hth] at e2
  norm_num at e2
  set st2 : AuthState :=
    { st1 with accounts := setk st1.accounts username (A 2 none) } with hst2
  have l2 : lookup st2.accounts username = some (A 2 none) := lookup_setk_self _ _ _
  have e3 := auth_fail_step verify st2 t3 tok3 username wrongpw (A 2 none) l2 rfl
    (by rw [hAh]; exact hw)
  rw [hth] at e3
  norm_num at e3
  set st3 : AuthState :=
    { st2 with accounts := setk st2.accounts username (A 3 none) } with hst3
  have l3 : lookup st3.accounts username = some (A 3 none) := lookup_setk_self _ _ _
  have e4 := auth_fail_step verify st3 t4 tok4 username wrongpw (A 3 none) l3 rfl
    (by rw [hAh]; exact hw)
  rw [hth] at e4
  norm_num at e4
  set st4 : AuthState :=
    { st3 with accounts := setk st3.accounts username (A 4 none) } with hst4
  have l4 : lookup st4.accounts username = some (A 4 none) := lookup_setk_self _ _ _
  have e5 := auth_fail_step verify st4 t5 tok5 username wrongpw (A 4 none) l4 rfl
    (by rw [hAh]; exact hw)
  rw [hth] at e5
  norm_num at e5
  set st5 : AuthState :=
    { st4 with accounts :=
                 setk st4.accounts username (A 5 (some (t5 + LOCKOUT_MINUTES))) } with hst5
  have l5 : lookup st5.accounts username = some (A 5 (some (t5 + LOCKOUT_MINUTES))) :=
    lookup_setk_self _ _ _
  have e6 := auth_locked verify st5 t6 tok6 username rightpw
    (A 5 (some (t5 + LOCKOUT_MINUTES))) (t5 + LOCKOUT_MINUTES) l5 rfl ht
  refine ⟨st1, st2, st3, st4, st5, A 1 none, A 2 none, A 3 none, A 4 none,
    A 5 (some (t5 + LOCKOUT_MINUTES)), e1, e2, e3, e4, e5,
    l1, rfl, rfl, l2, rfl, rfl, l3, rfl, rfl, l4, rfl, rfl, l5, rfl, rfl, e6, ?_⟩
  intro st now tok pw b hb hnb hvb
  have es := auth_success verify st now tok username pw b hb hnb hvb
  refine ⟨{ b with failed_attempts := 0, locked_until := none }, ?_, ?_, rfl, rfl⟩
  · rw [es]
  · rw [es]
    exact lookup_setk_self _ _ _

/-- Claim C9: an unknown username and a known, unlocked username with a
wrong password produce the very same error — status 401 with the same
generic message — so a caller cannot tell account absence from password
mismatch. -/
theorem login_errors_indistinguishable
    (verify : String → String → Bool) (st : AuthState)
    (now1 now2 : Nat) (tok1 tok2 : String) (u1 u2 p1 p2 : String) (a : Account)
    (h1 : lookup st.accounts u1 = none)
    (h2 : lookup st.accounts u2 = some a)
    (hnl : ∀ T, a.locked_until = some T → T ≤ now2)
    (hv : verify p2 a.password_hash = false) :
    (authenticate verify st now1 tok1 u1 p1).1 = .error ⟨401, "账号或密码错误"⟩ ∧
    (authenticate verify st now2 tok2 u2 p2).1 = .error ⟨401, "账号或密码错误"⟩ := by
  constructor
  · simp [authenticate, h1]
  · cases hl : a.locked_until with
    | none => simp only [authenticate, h2, hl, hv]; simp
    | some T =>
      have hT : ¬ (T > now2) := not_lt.mpr (hnl T hl)
      simp only [authenticate, h2, hl, hv]
      simp [hT]

/-- Witness for C3 at the seeded account `alice` with `verifyW`. -/
theorem lockout_after_five_failures_witness :
    ∃ (st1 st2 st3 st4 st5 : AuthState) (a1 a2 a3 a4 a5 : Account),
      authenticate verifyW authStW 0 "k1" "alice" "wrong" = (.error ⟨401, "账号或密码错误"⟩, st1) ∧
      authenticate verifyW st1 1 "k2" "alice" "wrong" = (.error ⟨401, "账号或密码错误"⟩, st2) ∧
      authenticate verifyW st2 2 "k3" "alice" "wrong" = (.error ⟨401, "账号或密码错误"⟩, st3) ∧
      authenticate verifyW st3 3 "k4" "alice" "wrong" = (.error ⟨401, "账号或密码错误"⟩, st4) ∧
      authenticate verifyW st4 4 "k5" "alice" "wrong" = (.error ⟨401, "账号或密码错误"⟩, st5) ∧
      lookup st1.accounts "alice" = some a1 ∧ a1.failed_attempts = 1 ∧ a1.locked_until = none ∧
      lookup st2.accounts "alice" = some a2 ∧ a2.failed_attempts = 2 ∧ a2.locked_until = none ∧
      lookup st3.accounts "alice" = some a3 ∧ a3.failed_attempts = 3 ∧ a3.locked_until = none ∧
      lookup st4.accounts "alice" = some a4 ∧ a4.failed_attempts = 4 ∧ a4.locked_until = none ∧
      lookup st5.accounts "alice" = some a5 ∧ a5.failed_attempts = 5 ∧
      a5.locked_until = some (4 + LOCKOUT_MINUTES) ∧
      authenticate verifyW st5 5 "k6" "alice" "Pass@123" =
        (.error ⟨423, "账号或密码错误/账号锁定"⟩, st5) ∧
      (∀ (st : AuthState) (now : Nat) (tok pw : String) (b : Account),
        lookup st.accounts "alice" = some b →
        (∀ T, b.locked_until = some T → T ≤ now) →
        verifyW pw b.password_hash = true →
        ∃ b', (authenticate verifyW st now tok "alice" pw).1 =
            .ok ⟨tok, b.role, b.force_password_change⟩ ∧
          lookup (authenticate verifyW st now tok "alice" pw).2.accounts "alice" = some b' ∧
          b'.failed_attempts = 0 ∧ b'.locked_until = none) :=
  lockout_after_five_failures verifyW authStW "alice" "wrong" "Pass@123"
    0 1 2 3 4 5 "k1" "k2" "k3" "k4" "k5" "k6" acctAliceW
    rfl rfl rfl rfl rfl (by decide)

/-- Witness for C9: `bob` is unknown, `alice` is known and unlocked with
a wrong password; the two errors coincide. -/
theorem login_errors_indistinguishable_witness :
    (authenticate verifyW authStW 0 "k1" "bob" "whatever").1 =
      .error ⟨401, "账号或密码错误"⟩ ∧
    (authenticate verifyW authStW 0 "k2" "alice" "nope").1 =
      .error ⟨401, "账号或密码错误"⟩ :=
  login_errors_indistinguishable verifyW authStW 0 0 "k1" "k2" "bob" "alice"
    "whatever" "nope" acctAliceW rfl rfl (fun T h => by cases h) rfl

/-! ## Lemmas about `teacher_update_grade` -/

/-- The create branch: all preconditions hold and the key is absent. -/
theorem upsert_create (db : DB) (now : Nat) (account : Account)
    (exam_id subject_code student_no : String) (score : ℚ)
    (tid : String) (S C : List String) (student : Student)
    (ht : teacher_for_account db account = .ok (tid, S, C))
    (hex : lookup db.exams exam_id ≠ none)
    (hsub : lookup db.subjects subject_code ≠ none)
    (hstu : lookup db.students student_no = some student)
    (hS : subject_code ∈ S) (hC : student.class_name ∈ C)
    (hscore : ¬(score < 0 ∨ score > 100))
    (hnew : lookup db.grades (exam_id, subject_code, student_no) = none) :
    teacher_update_grade db now account exam_id subject_code student_no score =
      (.ok ⟨exam_id, subject_code, student_no, pyround score 1, tid, now, now, false⟩,
       record_log
         { db with grades := db.grades ++
             [((exam_id, subject_code, student_no),
               ⟨exam_id, subject_code, student_no, pyround score 1, tid, now, now, false⟩)] }
         now .grade_created tid
         [("exam_id", exam_id), ("subject_code", subject_code),
          ("student_no", student_no), ("score", toString (pyround score 1))]) := by
  obtain ⟨exam, hex'⟩ := Option.ne_none_iff_exists'.mp hex
  simp only [teacher_update_grade, ht, hex', hstu, hnew]
  rw [if_neg hsub, if_neg (not_not_intro hS), if_neg (not_not_intro hC), if_neg hscore]

/-- The update branch: all preconditions hold and the key is present. -/
theorem upsert_update (db : DB) (now : Nat) (account : Account)
    (exam_id subject_code student_no : String) (score : ℚ)
    (tid : String) (S C : List String) (student : Student) (prev : Grade)
    (ht : teacher_for_account db account = .ok (tid, S, C))
    (hex : lookup db.exams exam_id ≠ none)
    (hsub : lookup db.subjects subject_code ≠ none)
    (hstu : lookup db.students student_no = some student)
    (hS : subject_code ∈ S) (hC : student.class_name ∈ C)
    (hscore : ¬(score < 0 ∨ score > 100))
    (hprev : lookup db.grades (exam_id, subject_code, student_no) = some prev) :
    teacher_update_grade db now account exam_id subject_code student_no score =
      (.ok ({ prev with score := pyround score 1, updated_at := now, created_by := tid }),
       record_log
         { db with grades :=
                     setk db.grades (exam_id, subject_code, student_no)
                       ({ prev with score := pyround score 1, updated_at := now,
                                    created_by := tid }) }
         now .grade_updated tid
         [("exam_id", exam_id), ("subject_code", subject_code),
          ("student_no", student_no), ("old_score", toString prev.score),
          ("new_score", toString (pyround score 1))]) := by
  obtain ⟨exam, hex'⟩ := Option.ne_none_iff_exists'.mp hex
  simp only [teacher_update_grade, ht, hex', hstu, hprev]
  rw [if_neg hsub, if_neg (not_not_intro hS), if_neg (not_not_intro hC), if_neg hscore]

/-- Claim C1: starting from a state with no grade at
`(exam_id, subject_code, student_no)`, the first successful upsert
creates the single grade at that key, and a second successful upsert
updates that same grade in place — the key still holds exactly one
grade, `created_at` is still the first call's time, and `updated_at`
is the second call's time.  The final clause covers every later call:
from any state holding a grade at the key, a successful upsert updates
it in place (same `created_at`, `updated_at` advanced to the call's
time, entry count at the key unchanged). -/
theorem upsert_single_grade_per_key
    (db : DB) (now1 now2 : Nat) (account : Account)
    (exam_id subject_code student_no : String) (score1 score2 : ℚ)
    (tid : String) (S C : List String) (student : Student)
    (ht : teacher_for_account db account = .ok (tid, S, C))
    (hex : lookup db.exams exam_id ≠ none)
    (hsub : lookup db.subjects subject_code ≠ none)
    (hstu : lookup db.students student_no = some student)
    (hS : subject_code ∈ S) (hC : student.class_name ∈ C)
    (hscore1 : ¬(score1 < 0 ∨ score1 > 100))
    (hscore2 : ¬(score2 < 0 ∨ score2 > 100))
    (hnew : lookup db.grades (exam_id, subject_code, student_no) = none) :
    ∃ (g1 g2 : Grade) (db1 db2 : DB),
      teacher_update_grade db now1 account exam_id subject_code student_no score1 =
        (.ok g1, db1) ∧
      teacher_update_grade db1 now2 account exam_id subject_code student_no score2 =
        (.ok g2, db2) ∧
      lookup db1.grades (exam_id, subject_code, student_no) = some g1 ∧
      lookup db2.grades (exam_id, subject_code, student_no) = some g2 ∧
      countKey db1.grades (exam_id, subject_code, student_no) = 1 ∧
      countKey db2.grades (exam_id, subject_code, student_no) = 1 ∧
      g1.created_at = now1 ∧ g1.updated_at = now1 ∧
      g2.created_at = now1 ∧ g2.updated_at = now2 ∧ g2.score = pyround score2 1 ∧
      (∀ (dbx : DB) (nowx : Nat) (scx : ℚ) (prevx : Grade),
        teacher_for_account dbx account = .ok (tid, S, C) →
        lookup dbx.exams exam_id ≠ none →
        lookup dbx.subjects subject_code ≠ none →
        lookup dbx.students student_no = some student →
        ¬(scx < 0 ∨ scx > 100) →
        lookup dbx.grades (exam_id, subject_code, student_no) = some prevx →
        ∃ (g' : Grade) (dbx' : DB),
          teacher_update_grade dbx nowx account exam_id subject_code student_no scx =
            (.ok g', dbx') ∧
          lookup dbx'.grades (exam_id, subject_code, student_no) = some g' ∧
          g'.created_at = prevx.created_at ∧ g'.updated_at = nowx ∧
          g'.score = pyround scx 1 ∧
          countKey dbx'.grades (exam_id, subject_code, student_no) =
            countKey dbx.grades (exam_id, subject_code, student_no)) := by
  have later : ∀ (dbx : DB) (nowx : Nat) (scx : ℚ) (prevx : Grade),
      teacher_for_account dbx account = .ok (tid, S, C) →
      lookup dbx.exams exam_id ≠ none →
      lookup dbx.subjects subject_code ≠ none →
      lookup dbx.students student_no = some student →
      ¬(scx < 0 ∨ scx > 100) →
      lookup dbx.grades (exam_id, subject_code, student_no) = some prevx →
      ∃ (g' : Grade) (dbx' : DB),
        teacher_update_grade dbx nowx account exam_id subject_code student_no scx =
          (.ok g', dbx') ∧
        lookup dbx'.grades (exam_id, subject_code, student_no) = some g' ∧
        g'.created_at = prevx.created_at ∧ g'.updated_at = nowx ∧
        g'.score = pyround scx 1 ∧
        countKey dbx'.grades (exam_id, subject_code, student_no) =
          countKey dbx.grades (exam_id, subject_code, student_no) := by
    intro dbx nowx scx prevx htx hexx hsubx hstux hscx hprevx
    have ex := upsert_update dbx nowx account exam_id subject_code student_no scx
      tid S C student prevx htx hexx hsubx hstux hS hC hscx hprevx
    refine ⟨_, _, ex, ?_, rfl, rfl, rfl, ?_⟩
    · show lookup (setk dbx.grades (exam_id, subject_code, student_no) _)
        (exam_id, subject_code, student_no) = _
      exact lookup_setk_self _ _ _
    · show countKey (setk dbx.grades (exam_id, subject_code, student_no) _)
        (exam_id, subject_code, student_no) = _
      exact countKey_setk_of_lookup_some _ hprevx _
  have e1 := upsert_create db now1 account exam_id subject_code student_no score1
    tid S C student ht hex hsub hstu hS hC hscore1 hnew
  set g1 : Grade :=
    ⟨exam_id, subject_code, student_no, pyround score1 1, tid, now1, now1, false⟩ with hg1
  set db1 : DB :=
    record_log
      { db with grades := db.grades ++ [((exam_id, subject_code, student_no), g1)] }
      now1 .grade_created tid
      [("exam_id", exam_id), ("subject_code", subject_code),
       ("student_no", student_no), ("score", toString (pyround score1 1))] with hdb1
  have hl1 : lookup db1.grades (exam_id, subject_code, student_no) = some g1 := by
    show lookup (db.grades ++ [((exam_id, subject_code, student_no), g1)])
      (exam_id, subject_code, student_no) = some g1
    rw [lookup_append_none _ hnew]
    simp [lookup]
  have hc1 : countKey db1.grades (exam_id, subject_code, student_no) = 1 := by
    show countKey (db.grades ++ [((exam_id, subject_code, student_no), g1)])
      (exam_id, subject_code, student_no) = 1
    rw [countKey_append, countKey_eq_zero_of_lookup_none hnew]
    simp [countKey]
  have e2 := upsert_update db1 now2 account exam_id subject_code student_no score2
    tid S C student g1 ht hex hsub hstu hS hC hscore2 hl1
  set g2 : Grade :=
    { g1 with score := pyround score2 1, updated_at := now2, created_by := tid } with hg2
  set db2 : DB :=
    record_log
      { db1 with grades := setk db1.grades (exam_id, subject_code, student_no) g2 }
      now2 .grade_updated tid
      [("exam_id", exam_id), ("subject_code", subject_code),
       ("student_no", student_no), ("old_score", toString g1.score),
       ("new_score", toString (pyround score2 1))] with hdb2
  have hl2 : lookup db2.grades (exam_id, subject_code, student_no) = some g2 := by
    show lookup (setk db1.grades (exam_id, subject_code, student_no) g2)
      (exam_id, subject_code, student_no) = some g2
    exact lookup_setk_self _ _ _
  have hc2 : countKey db2.grades (exam_id, subject_code, student_no) = 1 := by
    show countKey (setk db1.grades (exam_id, subject_code, student_no) g2)
      (exam_id, subject_code, student_no) = 1
    rw [countKey_setk_of_lookup_some g2 hl1]
    exact hc1
  exact ⟨g1, g2, db1, db2, e1, e2, hl1, hl2, hc1, hc2, rfl, rfl, rfl, rfl, rfl, later⟩

/-- Witness for C1 on the seed slice with no grades yet. -/
theorem upsert_single_grade_per_key_witness :
    ∃ (g1 g2 : Grade) (db1 db2 : DB),
      teacher_update_grade dbWnog 3 acctTeacherW "EX2025M" "CHN" "S001" 85 =
        (.ok g1, db1) ∧
      teacher_update_grade db1 4 acctTeacherW "EX2025M" "CHN" "S001" 91 =
        (.ok g2, db2) ∧
      lookup db1.grades ("EX2025M", "CHN", "S001") = some g1 ∧
      lookup db2.grades ("EX2025M", "CHN", "S001") = some g2 ∧
      countKey db1.grades ("EX2025M", "CHN", "S001") = 1 ∧
      countKey db2.grades ("EX2025M", "CHN", "S001") = 1 ∧
      g1.created_at = 3 ∧ g1.updated_at = 3 ∧
      g2.created_at = 3 ∧ g2.updated_at = 4 ∧ g2.score = pyround 91 1 ∧
      (∀ (dbx : DB) (nowx : Nat) (scx : ℚ) (prevx : Grade),
        teacher_for_account dbx acctTeacherW =
          .ok ("T100", ["CHN"], ["Class 1", "Class 2"]) →
        lookup dbx.exams "EX2025M" ≠ none →
        lookup dbx.subjects "CHN" ≠ none →
        lookup dbx.students "S001" = some studentW1 →
        ¬(scx < 0 ∨ scx > 100) →
        lookup dbx.grades ("EX2025M", "CHN", "S001") = some prevx →
        ∃ (g' : Grade) (dbx' : DB),
          teacher_update_grade dbx nowx acctTeacherW "EX2025M" "CHN" "S001" scx =
            (.ok g', dbx') ∧
          lookup dbx'.grades ("EX2025M", "CHN", "S001") = some g' ∧
          g'.created_at = prevx.created_at ∧ g'.updated_at = nowx ∧
          g'.score = pyround scx 1 ∧
          countKey dbx'.grades ("EX2025M", "CHN", "S001") =
            countKey dbx.grades ("EX2025M", "CHN", "S001")) :=
  upsert_single_grade_per_key dbWnog 3 4 acctTeacherW "EX2025M" "CHN" "S001" 85 91
    "T100" ["CHN"] ["Class 1", "Class 2"] studentW1
    rfl (by decide) (by decide) rfl (by decide) (by decide)
    (by norm_num) (by norm_num) rfl

/-- Counterexample to C6 as stated: a student actor together with an
unknown exam violates both the exam-existence precondition (claimed to
be checked first, yielding 404) and the authorization precondition; the
code raises 403 权限不足, so the exam check is not first. -/
theorem upsert_error_order_counterexample :
    teacher_update_grade dbW 0 acctStudentW "EXX" "CHN" "S001" 50 =
      (.error ⟨403, "权限不足"⟩, dbW) ∧
    lookup dbW.exams "EXX" = none := ⟨rfl, rfl⟩

/-- Claim C6 as amended: the actor's teacher role and binding are
checked first (both failing with 403), and only then are the
preconditions checked in the claimed order — exam exists (404), subject
exists (404), student exists (404), subject in the teacher's scope
(403), student's class in the teacher's scope (403), score range (400)
— with the earliest violated check deciding the error; on success the
stored score is the input rounded to one decimal place. -/
theorem upsert_check_order
    (db : DB) (now : Nat) (account : Account)
    (exam_id subject_code student_no : String) (score : ℚ) :
    (account.role ≠ Role.teacher →
      teacher_update_grade db now account exam_id subject_code student_no score =
        (.error ⟨403, "权限不足"⟩, db)) ∧
    (account.role = Role.teacher →
     lookup db.teachers (account.bind_id.getD "") = none →
      teacher_update_grade db now account exam_id subject_code student_no score =
        (.error ⟨403, "教师未绑定"⟩, db)) ∧
    (∀ tid S C, teacher_for_account db account = .ok (tid, S, C) →
      (lookup db.exams exam_id = none →
        teacher_update_grade db now account exam_id subject_code student_no score =
          (.error ⟨404, "考试不存在"⟩, db)) ∧
      (lookup db.exams exam_id ≠ none →
        (lookup db.subjects subject_code = none →
          teacher_update_grade db now account exam_id subject_code student_no score =
            (.error ⟨404, "科目不存在"⟩, db)) ∧
        (lookup db.subjects subject_code ≠ none →
          (lookup db.students student_no = none →
            teacher_update_grade db now account exam_id subject_code student_no score =
              (.error ⟨404, "学生不存在"⟩, db)) ∧
          (∀ student, lookup db.students student_no = some student →
            (subject_code ∉ S →
              teacher_update_grade db now account exam_id subject_code student_no score =
                (.error ⟨403, "无权操作该科目"⟩, db)) ∧
            (subject_code ∈ S →
              (student.class_name ∉ C →
                teacher_update_grade db now account exam_id subject_code student_no score =
                  (.error ⟨403, "无权操作该班级"⟩, db)) ∧
              (student.class_name ∈ C →
                ((score < 0 ∨ score > 100) →
                  teacher_update_grade db now account exam_id subject_code student_no score =
                    (.error ⟨400, "分数范围错误"⟩, db)) ∧
                (¬(score < 0 ∨ score > 100) →
                  ∃ (g : Grade) (db' : DB),
                    teacher_update_grade db now account exam_id subject_code student_no
                      score = (.ok g, db') ∧
                    g.score = pyround score 1 ∧
                    lookup db'.grades (exam_id, subject_code, student_no) = some g))))))) := by
  refine ⟨?_, ?_, ?_⟩
  · intro hrole
    simp [teacher_update_grade, teacher_for_account, hrole]
  · intro hrole hbind
    simp [teacher_update_grade, teacher_for_account, hrole, hbind]
  · intro tid S C ht
    refine ⟨?_, ?_⟩
    · intro hex
      simp [teacher_update_grade, ht, hex]
    · intro hex
      obtain ⟨exam, hex'⟩ := Option.ne_none_iff_exists'.mp hex
      refine ⟨?_, ?_⟩
      · intro hsub
        simp [teacher_update_grade, ht, hex', hsub]
      · intro hsub
        refine ⟨?_, ?_⟩
        · intro hstu
          simp only [teacher_update_grade, ht, hex', hstu]
          rw [if_neg hsub]
        · intro student hstu
          refine ⟨?_, ?_⟩
          · intro hS
            simp only [teacher_update_grade, ht, hex', hstu]
            rw [if_neg hsub, if_pos hS]
          · intro hS
            refine ⟨?_, ?_⟩
            · intro hC
              simp only [teacher_update_grade, ht, hex', hstu]
              rw [if_neg hsub, if_neg (not_not_intro hS), if_pos hC]
            · intro hC
              refine ⟨?_, ?_⟩
              · intro hscore
                simp only [teacher_update_grade, ht, hex', hstu]
                rw [if_neg hsub, if_neg (not_not_intro hS), if_neg (not_not_intro hC),
                  if_pos hscore]
              · intro hscore
                cases hkey : lookup db.grades (exam_id, subject_code, student_no) with
                | none =>
                  refine ⟨_, _, upsert_create db now account exam_id subject_code
                    student_no score tid S C student ht hex hsub hstu hS hC hscore hkey,
                    rfl, ?_⟩
                  show lookup (db.grades ++ _) _ = _
                  rw [lookup_append_none _ hkey]
                  simp [lookup]
                | some prev =>
                  refine ⟨_, _, upsert_update db now account exam_id subject_code
                    student_no score tid S C student prev ht hex hsub hstu hS hC hscore
                    hkey, rfl, ?_⟩
                  exact lookup_setk_self _ _ _

/-- Witness for the amended C6 at a fully valid call: the stored score
is the rounded input and sits at the key. -/
theorem upsert_check_order_witness :
    ∃ (g : Grade) (db' : DB),
      teacher_update_grade dbWnog 7 acctTeacherW "EX2025M" "CHN" "S002" 66 =
        (.ok g, db') ∧
      g.score = pyround 66 1 ∧
      lookup db'.grades ("EX2025M", "CHN", "S002") = some g :=
  ((((((upsert_check_order dbWnog 7 acctTeacherW "EX2025M" "CHN" "S002" 66).2.2
    "T100" ["CHN"] ["Class 1", "Class 2"] rfl).2 (by decide)).2 (by decide)).2
    studentW2 rfl).2 (by decide)).2 (by decide) |>.2 (by norm_num)

/-! ## Lemmas about `publish_fold` and `publish_grades` -/

/-- Each grade entry is reproduced at its key, either unchanged or with
`published` forced to `true` — never the other way. -/
theorem publish_fold_lookup (e c : String) (C : List String)
    (gs : List (GradeKey × Grade)) (students : List (String × Student)) (u : Nat)
    (k : GradeKey) (g : Grade) (hk : lookup gs k = some g) :
    ∃ g', lookup (publish_fold e c C gs students u).1 k = some g' ∧
      (g' = g ∨ g' = { g with published := true }) := by
  induction gs generalizing students u with
  | nil => simp [lookup] at hk
  | cons p rest ih =>
    obtain ⟨k₀, g₀⟩ := p
    by_cases hkk : k₀ = k
    · subst hkk
      rw [lookup, if_pos rfl] at hk
      injection hk with hk
      subst hk
      by_cases h1 : g₀.exam_id = e ∧ g₀.subject_code = c
      · cases hst : lookup students g₀.student_no with
        | none =>
          exact ⟨g₀, by simp [publish_fold, h1, hst, lookup], Or.inl rfl⟩
        | some st =>
          by_cases h2 : st.class_name ∈ C
          · exact ⟨{ g₀ with published := true },
              by simp [publish_fold, h1, hst, h2, lookup], Or.inr rfl⟩
          · exact ⟨g₀, by simp [publish_fold, h1, hst, h2, lookup], Or.inl rfl⟩
      · exact ⟨g₀, by simp [publish_fold, h1, lookup], Or.inl rfl⟩
    · rw [lookup, if_neg hkk] at hk
      by_cases h1 : g₀.exam_id = e ∧ g₀.subject_code = c
      · cases hst : lookup students g₀.student_no with
        | none =>
          obtain ⟨g', hg', hor⟩ := ih students u hk
          exact ⟨g', by simpa [publish_fold, h1, hst, lookup, hkk] using hg', hor⟩
        | some st =>
          by_cases h2 : st.class_name ∈ C
          · obtain ⟨g', hg', hor⟩ :=
              ih (if g₀.published then students
                  else setk students g₀.student_no
                    ({ st with has_unread_published_grades := true })) (u + 1) hk
            exact ⟨g', by simpa [publish_fold, h1, hst, h2, lookup, hkk] using hg', hor⟩
          · obtain ⟨g', hg', hor⟩ := ih students u hk
            exact ⟨g', by simpa [publish_fold, h1, hst, h2, lookup, hkk] using hg', hor⟩
      · obtain ⟨g', hg', hor⟩ := ih students u hk
        exact ⟨g', by simpa [publish_fold, h1, lookup, hkk] using hg', hor⟩

/-- The student dicts before and after a flag write agree on classes. -/
theorem sameClasses_setk_flag (students : List (String × Student)) (k : String)
    (st : Student) (b : Bool) (h : lookup students k = some st) :
    sameClasses students
      (setk students k ({ st with has_unread_published_grades := b })) := by
  intro no
  unfold lookupClass
  by_cases hk : no = k
  · subst hk
    rw [lookup_setk_self, h]
    rfl
  · rw [lookup_setk_ne _ _ _ _ hk]

theorem sameClasses_trans {s₁ s₂ s₃ : List (String × Student)}
    (h₁ : sameClasses s₁ s₂) (h₂ : sameClasses s₂ s₃) : sameClasses s₁ s₃ :=
  fun no => (h₁ no).trans (h₂ no)

theorem matchesB_congr {s s' : List (String × Student)} (h : sameClasses s s')
    (e c : String) (C : List String) (p : GradeKey × Grade) :
    matchesB s e c C p = matchesB s' e c C p := by
  unfold matchesB
  have hc := h p.2.student_no
  unfold lookupClass at hc
  cases h1 : lookup s p.2.student_no with
  | none =>
    cases h2 : lookup s' p.2.student_no with
    | none => rfl
    | some st' => rw [h1, h2] at hc; cases hc
  | some st =>
    cases h2 : lookup s' p.2.student_no with
    | none => rw [h1, h2] at hc; cases hc
    | some st' =>
      rw [h1, h2] at hc
      injection hc with hc
      simp [hc]

theorem transitionB_congr {s s' : List (String × Student)} (h : sameClasses s s')
    (e c : String) (C : List String) (no : String) (p : GradeKey × Grade) :
    transitionB s e c C no p = transitionB s' e c C no p := by
  unfold transitionB
  rw [matchesB_congr h]

theorem countP_congr_fun {α : Type} (l : List α) (p q : α → Bool)
    (h : ∀ a, p a = q a) : l.countP p = l.countP q := by
  induction l with
  | nil => rfl
  | cons a as ih => simp [List.countP_cons, h a, ih]

theorem any_congr_fun {α : Type} (l : List α) (p q : α → Bool)
    (h : ∀ a, p a = q a) : l.any p = l.any q := by
  induction l with
  | nil => rfl
  | cons a as ih => simp [List.any_cons, h a, ih]

/-- The `updated` counter counts exactly the matched entries — right
exam, right subject, student known and in scope — published or not. -/
theorem publish_fold_count (e c : String) (C : List String)
    (gs : List (GradeKey × Grade)) (students : List (String × Student)) (u : Nat) :
    (publish_fold e c C gs students u).2.2 =
      u + gs.countP (matchesB students e c C) := by
  induction gs generalizing students u with
  | nil => simp [publish_fold]
  | cons p rest ih =>
    obtain ⟨k₀, g₀⟩ := p
    by_cases h1 : g₀.exam_id = e ∧ g₀.subject_code = c
    · cases hst : lookup students g₀.student_no with
      | none =>
        have hm : matchesB students e c C (k₀, g₀) = false := by
          simp [matchesB, hst]
        simp [publish_fold, h1, hst, List.countP_cons, hm, ih]
      | some st =>
        by_cases h2 : st.class_name ∈ C
        · have hm : matchesB students e c C (k₀, g₀) = true := by
            simp [matchesB, hst, h1.1, h1.2, h2]
          by_cases hp : g₀.published
          · have hstep : (publish_fold e c C ((k₀, g₀) :: rest) students u).2.2 =
                (publish_fold e c C rest students (u + 1)).2.2 := by
              simp [publish_fold, h1, hst, h2, hp]
            rw [hstep, ih, List.countP_cons, hm]
            simp
            omega
          · have hsc := sameClasses_setk_flag students g₀.student_no st true hst
            have hstep : (publish_fold e c C ((k₀, g₀) :: rest) students u).2.2 =
                (publish_fold e c C rest
                  (setk students g₀.student_no
                    ({ st with has_unread_published_grades := true })) (u + 1)).2.2 := by
              simp [publish_fold, h1, hst, h2, hp]
            rw [hstep, ih, countP_congr_fun rest _ _
              (fun p => (matchesB_congr hsc e c C p).symm), List.countP_cons, hm]
            simp
            omega
        · have hm : matchesB students e c C (k₀, g₀) = false := by
            simp [matchesB, hst, h2]
          simp [publish_fold, h1, hst, h2, List.countP_cons, hm, ih]
    · have hm : matchesB students e c C (k₀, g₀) = false := by
        rcases not_and_or.mp h1 with h | h <;> simp [matchesB, h]
      simp [publish_fold, h1, List.countP_cons, hm, ih]

/-- Once the loop has set a student's unread flag it never unsets it. -/
theorem publish_fold_flag_mono (e c : String) (C : List String)
    (gs : List (GradeKey × Grade)) (students : List (String × Student)) (u : Nat)
    (no : String) (h : lookupFlag students no = some true) :
    lookupFlag (publish_fold e c C gs students u).2.1 no = some true := by
  induction gs generalizing students u with
  | nil => simpa [publish_fold]
  | cons p rest ih =>
    obtain ⟨k₀, g₀⟩ := p
    by_cases h1 : g₀.exam_id = e ∧ g₀.subject_code = c
    · cases hst : lookup students g₀.student_no with
      | none => simpa [publish_fold, h1, hst] using ih students u h
      | some st =>
        by_cases h2 : st.class_name ∈ C
        · by_cases hp : g₀.published
          · simpa [publish_fold, h1, hst, h2, hp] using ih students (u + 1) h
          · have h' : lookupFlag
                (setk students g₀.student_no
                  ({ st with has_unread_published_grades := true })) no = some true := by
              by_cases hno : no = g₀.student_no
              · subst hno
                unfold lookupFlag
                rw [lookup_setk_self]
                rfl
              · unfold lookupFlag at h ⊢
                rw [lookup_setk_ne _ _ _ _ hno]
                exact h
            simpa [publish_fold, h1, hst, h2, hp] using ih _ (u + 1) h'
        · simpa [publish_fold, h1, hst, h2] using ih students u h
    · simpa [publish_fold, h1] using ih students u h

/-- The loop sets the unread flag of exactly the students with a grade
transitioning unpublished → published, and touches no other flag. -/
theorem publish_fold_flag (e c : String) (C : List String)
    (gs : List (GradeKey × Grade)) (students : List (String × Student)) (u : Nat)
    (no : String) :
    lookupFlag (publish_fold e c C gs students u).2.1 no =
      if gs.any (transitionB students e c C no) then some true
      else lookupFlag students no := by
  induction gs generalizing students u with
  | nil => simp [publish_fold]
  | cons p rest ih =>
    obtain ⟨k₀, g₀⟩ := p
    by_cases h1 : g₀.exam_id = e ∧ g₀.subject_code = c
    · cases hst : lookup students g₀.student_no with
      | none =>
        have htr : transitionB students e c C no (k₀, g₀) = false := by
          simp [transitionB, matchesB, hst]
        have hstep : (publish_fold e c C ((k₀, g₀) :: rest) students u).2.1 =
            (publish_fold e c C rest students u).2.1 := by
          simp [publish_fold, h1, hst]
        rw [hstep, ih students u, List.any_cons, htr, Bool.false_or]
      | some st =>
        by_cases h2 : st.class_name ∈ C
        · by_cases hp : g₀.published
          · have htr : transitionB students e c C no (k₀, g₀) = false := by
              simp [transitionB, hp]
            have hstep : (publish_fold e c C ((k₀, g₀) :: rest) students u).2.1 =
                (publish_fold e c C rest students (u + 1)).2.1 := by
              simp [publish_fold, h1, hst, h2, hp]
            rw [hstep, ih students (u + 1), List.any_cons, htr, Bool.false_or]
          · by_cases hno : g₀.student_no = no
            · have htr : transitionB students e c C no (k₀, g₀) = true := by
                simp [transitionB, matchesB, ← hno, hst, h1.1, h1.2, h2, hp]
              have h' : lookupFlag
                  (setk students g₀.student_no
                    ({ st with has_unread_published_grades := true })) no = some true := by
                rw [← hno]
                unfold lookupFlag
                rw [lookup_setk_self]
                rfl
              have hmono := publish_fold_flag_mono e c C rest
                (setk students g₀.student_no
                  ({ st with has_unread_published_grades := true })) (u + 1) no h'
              have hstep : (publish_fold e c C ((k₀, g₀) :: rest) students u).2.1 =
                  (publish_fold e c C rest
                    (setk students g₀.student_no
                      ({ st with has_unread_published_grades := true })) (u + 1)).2.1 := by
                simp [publish_fold, h1, hst, h2, hp]
              rw [hstep, hmono, List.any_cons, htr, Bool.true_or]
              exact (if_pos rfl).symm
            · have htr : transitionB students e c C no (k₀, g₀) = false := by
                simp [transitionB, hno]
              have hsc := sameClasses_setk_flag students g₀.student_no st true hst
              have hflag : lookupFlag
                  (setk students g₀.student_no
                    ({ st with has_unread_published_grades := true })) no =
                  lookupFlag students no := by
                unfold lookupFlag
                rw [lookup_setk_ne _ _ _ _ (fun hh => hno hh.symm)]
              have hany := any_congr_fun rest
                (transitionB (setk students g₀.student_no
                  ({ st with has_unread_published_grades := true })) e c C no)
                (transitionB students e c C no)
                (fun p => (transitionB_congr hsc e c C no p).symm)
              have hstep : (publish_fold e c C ((k₀, g₀) :: rest) students u).2.1 =
                  (publish_fold e c C rest
                    (setk students g₀.student_no
                      ({ st with has_unread_published_grades := true })) (u + 1)).2.1 := by
                simp [publish_fold, h1, hst, h2, hp]
              rw [hstep, ih (setk students g₀.student_no
                ({ st with has_unread_published_grades := true })) (u + 1),
                hany, hflag, List.any_cons, htr]
              rw [Bool.false_or]
        · have htr : transitionB students e c C no (k₀, g₀) = false := by
            simp [transitionB, matchesB, hst, h2]
          have hstep : (publish_fold e c C ((k₀, g₀) :: rest) students u).2.1 =
              (publish_fold e c C rest students u).2.1 := by
            simp [publish_fold, h1, hst, h2]
          rw [hstep, ih students u, List.any_cons, htr, Bool.false_or]
    · have htr : transitionB students e c C no (k₀, g₀) = false := by
        rcases not_and_or.mp h1 with h | h <;> simp [transitionB, matchesB, h]
      have hstep : (publish_fold e c C ((k₀, g₀) :: rest) students u).2.1 =
          (publish_fold e c C rest students u).2.1 := by
        simp [publish_fold, h1]
      rw [hstep, ih students u, List.any_cons, htr, Bool.false_or]

/-! ## Preservation of `published` by every state-mutating operation -/

theorem upsert_preserves_published (db : DB) (now : Nat) (account : Account)
    (e s stu : String) (sc : ℚ) (k : GradeKey) (g : Grade)
    (hk : lookup db.grades k = some g) (hp : g.published = true) :
    ∃ g', lookup (teacher_update_grade db now account e s stu sc).2.grades k = some g' ∧
      g'.published = true := by
  simp only [teacher_update_grade]
  split
  · exact ⟨g, hk, hp⟩
  split
  · exact ⟨g, hk, hp⟩
  split
  · exact ⟨g, hk, hp⟩
  split
  · exact ⟨g, hk, hp⟩
  split
  · exact ⟨g, hk, hp⟩
  split
  · exact ⟨g, hk, hp⟩
  split
  · exact ⟨g, hk, hp⟩
  split
  · rename_i prev heq
    by_cases hkk : k = (e, s, stu)
    · subst hkk
      rw [hk] at heq
      injection heq with heq
      refine ⟨_, lookup_setk_self _ _ _, ?_⟩
      show prev.published = true
      rw [← heq]
      exact hp
    · refine ⟨g, ?_, hp⟩
      show lookup (setk db.grades (e, s, stu) _) k = some g
      rw [lookup_setk_ne _ _ _ _ hkk]
      exact hk
  · exact ⟨g, lookup_append_some _ hk, hp⟩

theorem import_fold_preserves_published (now : Nat) (account : Account)
    (rows : List CsvRow) :
    ∀ (idx : Nat) (db : DB) (processed : Nat) (errors : List String)
      (k : GradeKey) (g : Grade),
      lookup db.grades k = some g → g.published = true →
      ∃ g', lookup (import_fold now account rows idx db processed errors).2.grades k =
          some g' ∧ g'.published = true := by
  induction rows with
  | nil => exact fun idx db processed errors k g hk hp => ⟨g, hk, hp⟩
  | cons row rest ih =>
    intro idx db processed errors k g hk hp
    cases row with
    | malformed => exact ih (idx + 1) db processed _ k g hk hp
    | fields e s stu sc =>
      obtain ⟨g', hg', hp'⟩ := upsert_preserves_published db now account e s stu sc k g hk hp
      rcases hres : teacher_update_grade db now account e s stu sc with ⟨r, db'⟩
      rw [hres] at hg'
      cases r with
      | error err =>
        have := ih (idx + 1) db' processed
          (errors ++ ["第 " ++ toString idx ++ " 行导入失败: " ++ err.detail]) k g' hg' hp'
        simpa [import_fold, hres] using this
      | ok gr =>
        have := ih (idx + 1) db' (processed + 1) errors k g' hg' hp'
        simpa [import_fold, hres] using this

theorem publish_preserves_published (db : DB) (now : Nat) (account : Account)
    (e c : String) (k : GradeKey) (g : Grade)
    (hk : lookup db.grades k = some g) (hp : g.published = true) :
    ∃ g', lookup (publish_grades db now account e c).2.grades k = some g' ∧
      g'.published = true := by
  simp only [publish_grades]
  have key : ∀ (C : List String), ∃ g',
      lookup (publish_fold e c C db.grades db.students 0).1 k = some g' ∧
        g'.published = true := by
    intro C
    obtain ⟨g', hg', hor⟩ := publish_fold_lookup e c C db.grades db.students 0 k g hk
    refine ⟨g', hg', ?_⟩
    rcases hor with rfl | rfl
    · exact hp
    · rfl
  split
  · exact ⟨g, hk, hp⟩
  split
  · exact ⟨g, hk, hp⟩
  split
  · exact ⟨g, hk, hp⟩
  split
  · exact key _
  · exact key _

theorem list_student_grades_state (db : DB) (account : Account)
    (term exam_id : Option String) :
    (list_student_grades db account term exam_id).2.grades = db.grades := by
  simp only [list_student_grades]
  repeat' split
  all_goals rfl

/-- Claim C2: `published` is monotone — if a grade at some key is
published, then after any state-mutating operation of the API (upsert,
bulk import, publish, or the student's read-and-clear listing) the
grade at that key still exists and is still published. -/
theorem publish_monotonic (db : DB) (op : Op) (k : GradeKey) (g : Grade)
    (hk : lookup db.grades k = some g) (hp : g.published = true) :
    ∃ g', lookup (applyOp db op).grades k = some g' ∧ g'.published = true := by
  cases op with
  | upsert now account e s stu sc =>
    exact upsert_preserves_published db now account e s stu sc k g hk hp
  | bulkImport now account rows =>
    exact import_fold_preserves_published now account rows 2 db 0 [] k g hk hp
  | publish now account e c =>
    exact publish_preserves_published db now account e c k g hk hp
  | listStudent account t e =>
    rw [applyOp, list_student_grades_state]
    exact ⟨g, hk, hp⟩

/-- Witness for C2: the already-published seed grade survives a publish
call, still published. -/
theorem publish_monotonic_witness :
    ∃ g', lookup (applyOp dbW (Op.publish 9 acctTeacherW "EX2025M" "CHN")).grades
        ("EX2025M", "CHN", "S002") = some g' ∧ g'.published = true :=
  publish_monotonic dbW (Op.publish 9 acctTeacherW "EX2025M" "CHN")
    ("EX2025M", "CHN", "S002") gradeW2 rfl rfl

/-- Claim C4: for a teacher scoped to the subject and an existing exam,
publish returns the number of all grades matching (exam, subject) whose
student is in the teacher's class scope — already-published ones
included — and fails with 404 未找到成绩记录 exactly when that number
is zero. -/
theorem publish_count_spec (db : DB) (now : Nat) (account : Account)
    (e c tid : String) (S C : List String)
    (ht : teacher_for_account db account = .ok (tid, S, C))
    (hS : c ∈ S) (hex : lookup db.exams e ≠ none) :
    (db.grades.countP (matchesB db.students e c C) = 0 →
      (publish_grades db now account e c).1 = .error ⟨404, "未找到成绩记录"⟩) ∧
    (db.grades.countP (matchesB db.students e c C) ≠ 0 →
      (publish_grades db now account e c).1 =
        .ok (db.grades.countP (matchesB db.students e c C))) := by
  obtain ⟨exam, hex'⟩ := Option.ne_none_iff_exists'.mp hex
  have hcnt := publish_fold_count e c C db.grades db.students 0
  rw [Nat.zero_add] at hcnt
  constructor
  · intro h0
    simp only [publish_grades, ht, hex']
    rw [if_neg (not_not_intro hS), if_pos (hcnt.trans h0)]
  · intro h0
    simp only [publish_grades, ht, hex']
    rw [if_neg (not_not_intro hS), if_neg (fun hh => h0 (hcnt.symm.trans hh))]
    show Except.ok (publish_fold e c C db.grades db.students 0).2.2 = _
    rw [hcnt]

/-- Witness for C4 on the seed slice: both grades for (EX2025M, CHN)
match — one of them already published — and publish reports 2. -/
theorem publish_count_spec_witness :
    dbW.grades.countP (matchesB dbW.students "EX2025M" "CHN" ["Class 1", "Class 2"]) = 2 ∧
    (publish_grades dbW 9 acctTeacherW "EX2025M" "CHN").1 =
      .ok (dbW.grades.countP
        (matchesB dbW.students "EX2025M" "CHN" ["Class 1", "Class 2"])) :=
  ⟨rfl,
   (publish_count_spec dbW 9 acctTeacherW "EX2025M" "CHN" "T100" ["CHN"]
     ["Class 1", "Class 2"] rfl (by decide) (by decide)).2 (by decide)⟩

/-! ## The student read path -/

/-- A successful `list_student_grades` call reveals the bound student,
returns that student's unread flag, and clears it in the store. -/
theorem list_student_ok (db : DB) (account : Account) (term exam_id : Option String)
    (resp : StudentGradeResponse) (db' : DB)
    (h : list_student_grades db account term exam_id = (.ok resp, db')) :
    ∃ student, lookup db.students (account.bind_id.getD "") = some student ∧
      resp.has_unread = student.has_unread_published_grades ∧
      db' = { db with students :=
                        setk db.students (account.bind_id.getD "")
                          ({ student with has_unread_published_grades := false }) } := by
  simp only [list_student_grades] at h
  split at h
  · simp at h
  split at h
  · simp at h
  rename_i student hstu
  split at h
  · simp at h
  split at h
  · simp at h
  rw [Prod.mk.injEq] at h
  obtain ⟨h1, h2⟩ := h
  injection h1 with h1
  refine ⟨student, hstu, ?_, h2.symm⟩
  rw [← h1]

/-- Claim C5: (1) a publish sets a student's unread flag exactly when
some grade of that student transitions unpublished → published in the
call, leaving it untouched otherwise; (2) a successful student listing
returns the current flag and clears it to `false`; (3) hence two
successive reads with no intervening publish show `false` on the
second. -/
theorem notification_flag_spec :
    (∀ (db : DB) (now : Nat) (account : Account) (e c tid : String) (S C : List String),
      teacher_for_account db account = .ok (tid, S, C) → c ∈ S →
      lookup db.exams e ≠ none →
      ∀ no, lookupFlag (publish_grades db now account e c).2.students no =
        (if db.grades.any (transitionB db.students e c C no) then some true
         else lookupFlag db.students no)) ∧
    (∀ (db : DB) (account : Account) (t e : Option String) (resp : StudentGradeResponse)
        (db' : DB) (student : Student),
      list_student_grades db account t e = (.ok resp, db') →
      lookup db.students (account.bind_id.getD "") = some student →
      resp.has_unread = student.has_unread_published_grades ∧
      lookupFlag db'.students (account.bind_id.getD "") = some false) ∧
    (∀ (db : DB) (account : Account) (t1 e1 t2 e2 : Option String)
        (r1 r2 : StudentGradeResponse) (db1 db2 : DB),
      list_student_grades db account t1 e1 = (.ok r1, db1) →
      list_student_grades db1 account t2 e2 = (.ok r2, db2) →
      r2.has_unread = false) := by
  refine ⟨?_, ?_, ?_⟩
  · intro db now account e c tid S C ht hc hex no
    obtain ⟨exam, hex'⟩ := Option.ne_none_iff_exists'.mp hex
    have hf := publish_fold_flag e c C db.grades db.students 0 no
    simp only [publish_grades, ht, hex']
    rw [if_neg (not_not_intro hc)]
    split
    · exact hf
    · exact hf
  · intro db account t e resp db' student h hstu
    obtain ⟨student', hstu', hresp, hdb'⟩ := list_student_ok db account t e resp db' h
    rw [hstu] at hstu'
    injection hstu' with hstu'
    subst hstu'
    refine ⟨hresp, ?_⟩
    rw [hdb']
    show lookupFlag (setk db.students (account.bind_id.getD "") _)
      (account.bind_id.getD "") = some false
    unfold lookupFlag
    rw [lookup_setk_self]
    rfl
  · intro db account t1 e1 t2 e2 r1 r2 db1 db2 h1 h2
    obtain ⟨s1, hs1, hr1, hdb1⟩ := list_student_ok db account t1 e1 r1 db1 h1
    obtain ⟨s2, hs2, hr2, hdb2⟩ := list_student_ok db1 account t2 e2 r2 db2 h2
    have hlk : lookup db1.students (account.bind_id.getD "") =
        some ({ s1 with has_unread_published_grades := false }) := by
      rw [hdb1]
      exact lookup_setk_self _ _ _
    rw [hlk] at hs2
    injection hs2 with hs2
    rw [hr2, ← hs2]

/-- Witness for C5: publishing (EX2025M, CHN) on the seed slice sets
S001's unread flag (their grade was unpublished), and a student read on
the post-read store shows the flag cleared. -/
theorem notification_flag_spec_witness :
    lookupFlag (publish_grades dbW 9 acctTeacherW "EX2025M" "CHN").2.students "S001" =
      some true ∧
    ((⟨false, []⟩ : StudentGradeResponse).has_unread =
        studentW1.has_unread_published_grades ∧
      lookupFlag
        ({ dbW with students :=
                      [("S001", { studentW1 with has_unread_published_grades := false }),
                       ("S002", studentW2)] } : DB).students "S001" = some false) := by
  have h1 : list_student_grades dbW acctStudentW none none =
      (.ok ⟨false, []⟩,
       { dbW with students :=
                    [("S001", { studentW1 with has_unread_published_grades := false }),
                     ("S002", studentW2)] }) := by
    have hv : build_views dbW studentW1
        (List.filter Grade.published (grades_for_student dbW studentW1.student_no)) =
        .ok [] := rfl
    simp only [list_student_grades]
    rw [if_neg (by decide : ¬ acctStudentW.role ≠ Role.student)]
    rw [show lookup dbW.students (acctStudentW.bind_id.getD "") = some studentW1 from rfl]
    rw [show pyTruthy (none : Option String) = false from rfl]
    simp only [Bool.false_eq_true, if_false]
    rw [hv]
    simp only [List.mergeSort_nil]
    rfl
  constructor
  · have hpub := notification_flag_spec.1 dbW 9 acctTeacherW "EX2025M" "CHN" "T100"
      ["CHN"] ["Class 1", "Class 2"] rfl (by decide) (by decide) "S001"
    rw [hpub]
    rfl
  · exact notification_flag_spec.2.1 dbW acctStudentW none none ⟨false, []⟩ _ studentW1
      h1 rfl

/-! ## Visibility lemmas -/

/-- The `term` filter only selects from its input list. -/
theorem filter_term_mem (db : DB) (t : String) (l : List Grade) :
    ∀ l', filter_term db t l = .ok l' → ∀ g ∈ l', g ∈ l := by
  induction l with
  | nil =>
    intro l' h g hg
    simp only [filter_term] at h
    injection h with h
    rw [← h] at hg
    cases hg
  | cons g₀ rest ih =>
    intro l' h g hg
    simp only [filter_term] at h
    cases hex : lookup db.exams g₀.exam_id with
    | none => rw [hex] at h; cases h
    | some exam =>
      rw [hex] at h
      cases hrest : filter_term db t rest with
      | error err => rw [hrest] at h; simp [Bind.bind, Except.bind] at h
      | ok tail =>
        rw [hrest] at h
        simp only [Bind.bind, Except.bind, pure, Except.pure] at h
        injection h with h
        rw [← h] at hg
        by_cases hterm : exam.term = t
        · rw [if_pos hterm] at hg
          rcases List.mem_cons.mp hg with rfl | hg'
          · exact List.mem_cons_self _ _
          · exact List.mem_cons_of_mem _ (ih tail hrest g hg')
        · rw [if_neg hterm] at hg
          exact List.mem_cons_of_mem _ (ih tail hrest g hg)

/-- Every view produced by the student listing loop stems from a grade
of the input list, keeping exam, subject and score. -/
theorem build_views_mem (db : DB) (student : Student) (l : List Grade) :
    ∀ vs, build_views db student l = .ok vs →
      ∀ v ∈ vs, ∃ g, g ∈ l ∧ v.exam_id = g.exam_id ∧
        v.subject_code = g.subject_code ∧ v.score = g.score := by
  induction l with
  | nil =>
    intro vs h v hv
    simp only [build_views] at h
    injection h with h
    rw [← h] at hv
    cases hv
  | cons g₀ rest ih =>
    intro vs h v hv
    simp only [build_views] at h
    cases hex : lookup db.exams g₀.exam_id with
    | none =>
      rw [hex] at h
      obtain ⟨g, hg, h1, h2, h3⟩ := ih vs h v hv
      exact ⟨g, List.mem_cons_of_mem _ hg, h1, h2, h3⟩
    | some exam =>
      rw [hex] at h
      cases hcs : class_scores db student.class_name g₀.exam_id g₀.subject_code
          (values db.grades) with
      | error err => rw [hcs] at h; simp [Bind.bind, Except.bind] at h
      | ok scores =>
        rw [hcs] at h
        cases hrest : build_views db student rest with
        | error err => rw [hrest] at h; simp [Bind.bind, Except.bind] at h
        | ok tail =>
          rw [hrest] at h
          simp only [Bind.bind, Except.bind, pure, Except.pure] at h
          injection h with h
          rw [← h] at hv
          rcases List.mem_cons.mp hv with rfl | hv'
          · exact ⟨g₀, List.mem_cons_self _ _, rfl, rfl, rfl⟩
          · obtain ⟨g, hg, h1, h2, h3⟩ := ih tail hrest v hv'
            exact ⟨g, List.mem_cons_of_mem _ hg, h1, h2, h3⟩

/-- A successful student listing exposes the filtered grade list that
fed `build_views`: only published grades of the bound student. -/
theorem list_student_ok_views (db : DB) (account : Account)
    (term exam_id : Option String) (resp : StudentGradeResponse) (db' : DB)
    (h : list_student_grades db account term exam_id = (.ok resp, db')) :
    ∃ student rel views,
      lookup db.students (account.bind_id.getD "") = some student ∧
      build_views db student rel = .ok views ∧
      resp.grades = views.mergeSort studentViewLE ∧
      ∀ g ∈ rel, g ∈ values db.grades ∧ g.published = true ∧
        g.student_no = student.student_no := by
  simp only [list_student_grades] at h
  split at h
  · simp at h
  split at h
  · simp at h
  rename_i student hstu
  split at h
  · simp at h
  rename_i rel₁ hrel₁
  split at h
  · simp at h
  rename_i views hviews
  rw [Prod.mk.injEq] at h
  obtain ⟨h1, h2⟩ := h
  injection h1 with h1
  have hbase : ∀ g ∈ List.filter Grade.published (grades_for_student db student.student_no),
      g ∈ values db.grades ∧ g.published = true ∧ g.student_no = student.student_no := by
    intro g hg
    obtain ⟨hg1, hg2⟩ := List.mem_filter.mp hg
    obtain ⟨hg3, hg4⟩ := List.mem_filter.mp hg1
    exact ⟨hg3, hg2, of_decide_eq_true hg4⟩
  have hrel1mem : ∀ g ∈ rel₁,
      g ∈ values db.grades ∧ g.published = true ∧ g.student_no = student.student_no := by
    intro g hg
    split at hrel₁
    · exact hbase g (filter_term_mem db _ _ rel₁ hrel₁ g hg)
    · injection hrel₁ with hrel₁
      rw [← hrel₁] at hg
      exact hbase g hg
  refine ⟨student, _, views, hstu, hviews, ?_, ?_⟩
  · rw [← h1]
  · intro g hg
    by_cases hpe : pyTruthy exam_id = true
    · rw [if_pos hpe] at hg
      exact hrel1mem g (List.mem_filter.mp hg).1
    · rw [if_neg hpe] at hg
      exact hrel1mem g hg

/-- Claim C7: a teacher bound to subjects `S` and classes `C` sees
exactly the grades whose subject is in `S` and whose student's class is
in `C`, published or not; and every view a student listing returns
stems from a published grade of the student's own `student_no`. -/
theorem visibility_partition :
    (∀ (db : DB) (account : Account) (tid : String) (S C : List String),
      teacher_for_account db account = .ok (tid, S, C) →
      ∃ gs, visible_grades_for_teacher db account = .ok gs ∧
        ∀ g, g ∈ gs ↔ (g ∈ values db.grades ∧ g.subject_code ∈ S ∧
          ∃ st, st ∈ values db.students ∧ st.class_name ∈ C ∧
            st.student_no = g.student_no)) ∧
    (∀ (db : DB) (account : Account) (t e : Option String)
        (resp : StudentGradeResponse) (db' : DB) (student : Student),
      list_student_grades db account t e = (.ok resp, db') →
      lookup db.students (account.bind_id.getD "") = some student →
      ∀ v ∈ resp.grades, ∃ g, g ∈ values db.grades ∧ g.published = true ∧
        g.student_no = student.student_no ∧ v.exam_id = g.exam_id ∧
        v.subject_code = g.subject_code ∧ v.score = g.score) := by
  constructor
  · intro db account tid S C ht
    have hv : visible_grades_for_teacher db account =
        .ok ((values db.grades).filter
          (fun grade =>
            decide (grade.subject_code ∈ S ∧
              grade.student_no ∈
                ((values db.students).filter
                  (fun s => decide (s.class_name ∈ C))).map Student.student_no))) := by
      simp only [visible_grades_for_teacher, ht]
    refine ⟨_, hv, ?_⟩
    intro g
    simp only [List.mem_filter, List.mem_map, decide_eq_true_eq]
    tauto
  · intro db account t e resp db' student h hstu
    obtain ⟨student', rel, views, hstu', hviews, hgr, hmem⟩ :=
      list_student_ok_views db account t e resp db' h
    rw [hstu] at hstu'
    injection hstu' with hstu'
    subst hstu'
    intro v hv
    rw [hgr] at hv
    have hv' : v ∈ views := List.mem_mergeSort.mp hv
    obtain ⟨g, hg, h1, h2, h3⟩ := build_views_mem db student rel views hviews v hv'
    obtain ⟨hm1, hm2, hm3⟩ := hmem g hg
    exact ⟨g, hm1, hm2, hm3, h1, h2, h3⟩

/-- Witness for C7 on the seed slice: the CHN teacher's visible set is
characterized, and the S001 student's (empty) listing only ever shows
published own grades. -/
theorem visibility_partition_witness :
    (∃ gs, visible_grades_for_teacher dbW acctTeacherW = .ok gs ∧
      ∀ g, g ∈ gs ↔ (g ∈ values dbW.grades ∧ g.subject_code ∈ ["CHN"] ∧
        ∃ st, st ∈ values dbW.students ∧ st.class_name ∈ ["Class 1", "Class 2"] ∧
          st.student_no = g.student_no)) ∧
    (∀ v ∈ (⟨false, []⟩ : StudentGradeResponse).grades,
      ∃ g, g ∈ values dbW.grades ∧ g.published = true ∧
        g.student_no = studentW1.student_no ∧ v.exam_id = g.exam_id ∧
        v.subject_code = g.subject_code ∧ v.score = g.score) := by
  have h1 : list_student_grades dbW acctStudentW none none =
      (.ok ⟨false, []⟩,
       { dbW with students :=
                    [("S001", { studentW1 with has_unread_published_grades := false }),
                     ("S002", studentW2)] }) := by
    have hv : build_views dbW studentW1
        (List.filter Grade.published (grades_for_student dbW studentW1.student_no)) =
        .ok [] := rfl
    simp only [list_student_grades]
    rw [if_neg (by decide : ¬ acctStudentW.role ≠ Role.student)]
    rw [show lookup dbW.students (acctStudentW.bind_id.getD "") = some studentW1 from rfl]
    rw [show pyTruthy (none : Option String) = false from rfl]
    simp only [Bool.false_eq_true, if_false]
    rw [hv]
    simp only [List.mergeSort_nil]
    rfl
  exact ⟨visibility_partition.1 dbW acctTeacherW "T100" ["CHN"] ["Class 1", "Class 2"] rfl,
    visibility_partition.2 dbW acctStudentW none none ⟨false, []⟩ _ studentW1 h1 rfl⟩

/-! ## Aggregation -/

/-- Claim C8: over a non-empty score set the aggregation yields the
maximum, the minimum, the mean rounded to two decimals and the
percentage of scores ≥ 60 rounded to two decimals; the empty set yields
no stats, and every overview entry carries exactly the aggregation of
the recorded scores (published or not) of its (exam, subject) pair —
so a pair with no scores produces no entry.  The spec's example
`[88, 76, 92, 81, 67, 85]` gives 92 / 67 / 81.5 / 100. -/
theorem aggregation_spec :
    (aggregate_scores [] = none) ∧
    (∀ (scores : List ℚ) (stats : AggregatedStats),
      aggregate_scores scores = some stats →
      stats.highest ∈ scores ∧ (∀ x ∈ scores, x ≤ stats.highest) ∧
      stats.lowest ∈ scores ∧ (∀ x ∈ scores, stats.lowest ≤ x) ∧
      stats.average = pyround (scores.sum / scores.length) 2 ∧
      stats.pass_rate = pyround
        (100 * ((scores.filter (fun score => decide (score ≥ PASSING_SCORE))).length : ℚ) /
          scores.length) 2) ∧
    (aggregate_scores [88, 76, 92, 81, 67, 85] = some ⟨92, 67, 81.5, 100⟩) ∧
    (∀ (db : DB) (exams : List Exam) (entry : OverviewEntry),
      entry ∈ overview_entries db exams →
      aggregate_scores (scores_for db entry.exam_id entry.subject_code) =
        some entry.stats) := by
  refine ⟨rfl, ?_, ?_, ?_⟩
  · intro scores stats h
    cases scores with
    | nil => cases h
    | cons s rest =>
      simp only [aggregate_scores, Option.some.injEq] at h
      subst h
      refine ⟨?_, ?_, ?_, ?_, rfl, ?_⟩
      · rcases foldl_max_eq_or_mem rest s with hh | hh
        · rw [hh]; exact List.mem_cons_self _ _
        · exact List.mem_cons_of_mem _ hh
      · intro x hx
        rcases List.mem_cons.mp hx with rfl | hx'
        · exact le_foldl_max rest x
        · exact mem_le_foldl_max rest s x hx'
      · rcases foldl_min_eq_or_mem rest s with hh | hh
        · rw [hh]; exact List.mem_cons_self _ _
        · exact List.mem_cons_of_mem _ hh
      · intro x hx
        rcases List.mem_cons.mp hx with rfl | hx'
        · exact foldl_min_le rest x
        · exact foldl_min_le_mem rest s x hx'
      · show pyround _ 2 = pyround _ 2
        congr 1
        ring
  · have hsum : ([(88:ℚ), 76, 92, 81, 67, 85]).sum = 489 := by norm_num
    have hpass : (([(88:ℚ), 76, 92, 81, 67, 85]).filter
        (fun score => decide (score ≥ PASSING_SCORE))).length = 6 := by
      norm_num [List.filter_cons, decide_eq_true_eq, PASSING_SCORE]
    simp only [aggregate_scores, Option.some.injEq, AggregatedStats.mk.injEq]
    refine ⟨?_, ?_, ?_, ?_⟩
    · norm_num [List.foldl, max_def]
    · norm_num [List.foldl, min_def]
    · rw [hsum]
      rw [show (([(88:ℚ), 76, 92, 81, 67, 85]).length : ℚ) = 6 by norm_num]
      rw [pyround_int (489 / 6) 2 8150 (by norm_num)]
      norm_num
    · rw [hpass]
      rw [show (([(88:ℚ), 76, 92, 81, 67, 85]).length : ℚ) = 6 by norm_num]
      rw [show (((6:ℕ) : ℚ) / 6 * 100) = 100 by norm_num]
      rw [pyround_int 100 2 10000 (by norm_num)]
      norm_num
  · intro db exams entry hmem
    simp only [overview_entries, List.mem_flatMap, List.mem_filterMap] at hmem
    obtain ⟨exam, hexam, subject, hsub, heq⟩ := hmem
    obtain ⟨stats, hstats, hentry⟩ := Option.map_eq_some'.mp heq
    subst hentry
    exact hstats

/-- Witness for C8: the spec example, with the extremum facts extracted
through the general clause. -/
theorem aggregation_spec_witness :
    aggregate_scores [88, 76, 92, 81, 67, 85] = some ⟨92, 67, 81.5, 100⟩ ∧
    (92:ℚ) ∈ ([88, 76, 92, 81, 67, 85] : List ℚ) ∧
    (∀ x ∈ ([88, 76, 92, 81, 67, 85] : List ℚ), x ≤ (92:ℚ)) := by
  have h := aggregation_spec.2.2.1
  have h2 := aggregation_spec.2.1 [88, 76, 92, 81, 67, 85] ⟨92, 67, 81.5, 100⟩ h
  exact ⟨h, h2.1, h2.2.1⟩

/-! ## Principal overview totality -/

/-- Counterexample to C10 as stated: `exam_id = ""` is a non-None value
that is not a key of the exam store, yet the call returns normally (the
code tests Python truthiness, not None-ness, so `""` falls back to
iterating all exams). -/
theorem principal_overview_empty_examid :
    principal_overview dbWnog (some "") = .ok [] ∧
    lookup dbWnog.exams "" = none := ⟨rfl, rfl⟩

/-- Claim C10 as amended: for every non-None, non-empty `exam_id` that
is not a key of the exam store, `principal_overview` raises an uncaught
`KeyError`; a non-empty `exam_id` naming an existing exam restricts the
overview to it, while `None` or `""` (falsy) fall back to all exams —
so the operation is total only when a truthy `exam_id` names an
existing exam. -/
theorem principal_overview_keyerror (db : DB) (eid : String) :
    (eid ≠ "" → lookup db.exams eid = none →
      principal_overview db (some eid) = .error (.keyError eid)) ∧
    (∀ exam, eid ≠ "" → lookup db.exams eid = some exam →
      principal_overview db (some eid) = .ok (overview_entries db [exam])) ∧
    (principal_overview db none = .ok (overview_entries db (values db.exams))) ∧
    (principal_overview db (some "") =
      .ok (overview_entries db (values db.exams))) := by
  refine ⟨?_, ?_, rfl, rfl⟩
  · intro hne hnone
    have htr : pyTruthy (some eid) = true := by
      simp only [pyTruthy, Bool.not_eq_true']
      exact Bool.eq_false_iff.mpr (fun hh => hne ((String.isEmpty_iff eid).mp hh))
    simp only [principal_overview, htr, if_true, Option.getD_some, hnone]
  · intro exam hne hsome
    have htr : pyTruthy (some eid) = true := by
      simp only [pyTruthy, Bool.not_eq_true']
      exact Bool.eq_false_iff.mpr (fun hh => hne ((String.isEmpty_iff eid).mp hh))
    simp only [principal_overview, htr, if_true, Option.getD_some, hsome]

/-- Witness for the amended C10: an unknown non-empty exam id produces
the `KeyError`, the seeded exam id the restricted overview. -/
theorem principal_overview_keyerror_witness :
    principal_overview dbWnog (some "EXX") = .error (.keyError "EXX") ∧
    principal_overview dbWnog (some "EX2025M") =
      .ok (overview_entries dbWnog [examW]) :=
  ⟨(principal_overview_keyerror dbWnog "EXX").1 (by decide) rfl,
   (principal_overview_keyerror dbWnog "EX2025M").2.1 examW (by decide) rfl⟩

end StudentApp
